import Mathlib

/-!
Verification of the PTP camera shutter-count client (`camera.ts`).

The TypeScript source is embedded shallowly:

* Buffers (`DataView`, `Uint8Array`) become `List Nat`; every read applies
  `% 256`, so an arbitrary list behaves as a byte array.
* The USB transport is an oracle: a `Trace` is the list of results of the
  successive `transferIn` / `transferOut` (and other USB) calls, where
  `none` models a rejected promise (a thrown error) and `some chunk` a
  completed transfer carrying `chunk` bytes.
* Stateful methods of `PtpDevice` become functions
  `PtpState → Trace → Except Unit α × PtpState × Trace` (the monad `M`):
  explicit state passing plus explicit propagation of thrown errors.
* `DataView` reads that can throw a `RangeError` (out-of-range offset)
  are modelled with `Option`-returning readers; in-bounds reads that the
  source guards explicitly use the total readers.
-/

namespace Camera

/-! ## Bytes and little-endian readers -/

/-- Read the byte at index `i`; out-of-range indices read as 0 and every
value is reduced mod 256, so any `List Nat` acts as a byte buffer. -/
def byteAt (l : List Nat) (i : Nat) : Nat := (l.getD i 0) % 256

/-- `DataView.getUint16(i, true)` on an in-bounds offset. -/
def le16 (l : List Nat) (i : Nat) : Nat := byteAt l i + 256 * byteAt l (i+1)

/-- `DataView.getUint32(i, true)` on an in-bounds offset. -/
def le32 (l : List Nat) (i : Nat) : Nat :=
  byteAt l i + 256 * byteAt l (i+1) + 65536 * byteAt l (i+2) +
    16777216 * byteAt l (i+3)

/-- `DataView.getUint16`: throws (`none`) when `i + 2` exceeds the length. -/
def getUint16? (l : List Nat) (i : Nat) : Option Nat :=
  if i + 2 ≤ l.length then some (le16 l i) else none

/-- `DataView.getUint32`: throws (`none`) when `i + 4` exceeds the length. -/
def getUint32? (l : List Nat) (i : Nat) : Option Nat :=
  if i + 4 ≤ l.length then some (le32 l i) else none

/-- The little-endian octets of a 32-bit word (`DataView.setUint32`). -/
def u32octets (n : Nat) : List Nat :=
  [n % 256, n / 256 % 256, n / 65536 % 256, n / 16777216 % 256]

/-- The little-endian octets of a 16-bit word (`DataView.setUint16`). -/
def u16octets (n : Nat) : List Nat := [n % 256, n / 256 % 256]

/-- JavaScript's `ToUint32` conversion applied to an integer. -/
def u32ofInt (x : Int) : Nat := (x % (4294967296 : Int)).toNat

/-! ## Protocol constants (from the top of `camera.ts`) -/

def PTP_HEADER_SIZE : Nat := 12

def PTP_OC_GetDeviceInfo : Nat := 0x1001
def PTP_OC_OpenSession : Nat := 0x1002
def PTP_OC_CloseSession : Nat := 0x1003
def PTP_OC_GetDevicePropValue : Nat := 0x1015

def PTP_RC_OK : Nat := 0x2001

def PTP_USB_CONTAINER_COMMAND : Nat := 0x0001
def PTP_USB_CONTAINER_DATA : Nat := 0x0002
def PTP_USB_CONTAINER_RESPONSE : Nat := 0x0003

def PTP_VENDOR_CANON : Nat := 0x0b
def PTP_VENDOR_FUJI : Nat := 0x0e

def PTP_DPC_CANON_EOS_ShutterCounter : Nat := 0xd1ac
def PTP_DPC_CANON_EOS_ShutterReleaseCounter : Nat := 0xd167
def PTP_DPC_FUJI_TotalShotCount : Nat := 0xd310

def PTP_OC_CANON_EOS_SetRemoteMode : Nat := 0x9114
def PTP_OC_CANON_EOS_SetEventMode : Nat := 0x9115
def PTP_OC_CANON_EOS_GetEvent : Nat := 0x9116
def PTP_OC_CANON_EOS_PCHDDCapacity : Nat := 0x911a
def PTP_OC_CANON_EOS_SetRequestOLCInfoGroup : Nat := 0x913d
def PTP_OC_CANON_EOS_RequestDevicePropValue : Nat := 0x9127
def PTP_EC_CANON_EOS_PropValueChanged : Nat := 0xc189
def PTP_RC_SessionAlreadyOpened : Nat := 0x201e

/-! ## Data model -/

structure CameraInfo where
  manufacturer : List Nat
  model : List Nat
  version : List Nat
  serial : List Nat
  shutterCount : Int
deriving Repr, DecidableEq

structure DeviceInfo where
  vendorExtensionId : Nat
  manufacturer : List Nat
  model : List Nat
  version : List Nat
  serial : List Nat
deriving Repr, DecidableEq

structure PropValueChange where
  propCode : Nat
  value : Nat
deriving Repr, DecidableEq

/-- The mutable fields of `PtpDevice` that the modelled code uses, plus the
list of encoded command packets in the order they were built (`sent`),
which is the observable record of what was written to the device. -/
structure PtpState where
  transactionId : Int
  sent : List (List Nat)
  interfaceNumber : Option Nat
  opened : Bool
deriving Repr, DecidableEq

/-! ## The device oracle and the computation monad -/

/-- One trace entry per USB call: `none` = the promise rejected (throw),
`some chunk` = it resolved carrying `chunk` (empty for `transferOut`
acknowledgements and for empty `transferIn` results). -/
abbrev Trace := List (Option (List Nat))

/-- A stateful computation of the client: explicit state, explicit trace
consumption, explicit thrown-error propagation. -/
def M (α : Type) : Type := PtpState → Trace → Except Unit α × PtpState × Trace

def pureM {α : Type} (a : α) : M α := fun st tr => (.ok a, st, tr)

def throwErr {α : Type} : M α := fun st tr => (.error (), st, tr)

def bindM {α β : Type} (x : M α) (f : α → M β) : M β := fun st tr =>
  match x st tr with
  | (.error e, st', tr') => (.error e, st', tr')
  | (.ok a, st', tr') => f a st' tr'

/-- JavaScript `try { x } catch { h }`. -/
def tryCatchM {α : Type} (x : M α) (h : M α) : M α := fun st tr =>
  match x st tr with
  | (.error _, st', tr') => h st' tr'
  | (.ok a, st', tr') => (.ok a, st', tr')

/-- JavaScript `try { x } finally { fin }`: the finaliser always runs, and
if the finaliser itself throws, its error replaces the body's outcome. -/
def tryFinallyM {α : Type} (x : M α) (fin : M Unit) : M α := fun st tr =>
  match x st tr with
  | (r, st', tr') =>
    match fin st' tr' with
    | (.error e, st'', tr'') => (.error e, st'', tr'')
    | (.ok _, st'', tr'') => (r, st'', tr'')

/-- `device.transferIn`: consume the next oracle entry; a `none` entry (or
an exhausted trace) is a thrown transport error. -/
def transferIn : M (List Nat) := fun st tr =>
  match tr with
  | [] => (.error (), st, [])
  | none :: rest => (.error (), st, rest)
  | some c :: rest => (.ok c, st, rest)

/-- `device.transferOut` (and other one-shot USB calls): consume the next
oracle entry, succeeding unless it is `none`. -/
def transferOut : M Unit := fun st tr =>
  match tr with
  | [] => (.error (), st, [])
  | none :: rest => (.error (), st, rest)
  | some _ :: rest => (.ok (), st, rest)

/-- `device.releaseInterface`, modelled as a generic USB call. -/
def releaseInterfaceOp : M Unit := transferOut

/-- `device.close()`: a USB call that marks the device closed on success. -/
def deviceCloseOp : M Unit :=
  bindM transferOut fun _ => fun st tr => (.ok (), {st with opened := false}, tr)

/-! ## Packet codec (`encodePacket`, `sendCommand`) -/

/-- `encodePacket` builds `length:u32, type:u16, code:u16, transactionId:u32`
followed by each parameter as a little-endian 32-bit word. -/
def encodePacket (type code : Nat) (tid : Int) (params : List Nat) : List Nat :=
  u32octets (PTP_HEADER_SIZE + params.length * 4) ++ u16octets type ++
    u16octets code ++ u32octets (u32ofInt tid) ++ (params.map u32octets).flatten

/-- The operation code stored in an encoded packet's header. -/
def decodeCode (pkt : List Nat) : Nat := le16 pkt 6

/-- The transaction id stored in an encoded packet's header. -/
def decodeTid (pkt : List Nat) : Nat := le32 pkt 8

/-- `sendCommand`: increment `transactionId`, encode the command packet
with the incremented id, record it, and write it to the out endpoint. -/
def sendCommand (code : Nat) (params : List Nat) : M Unit := fun st tr =>
  let st1 : PtpState := {st with transactionId := st.transactionId + 1}
  let pkt := encodePacket PTP_USB_CONTAINER_COMMAND code st1.transactionId params
  transferOut {st1 with sent := st1.sent ++ [pkt]} tr

/-- `setTid v` models a direct assignment `this.transactionId = v`. -/
def setTid (v : Int) : M Unit := fun st tr =>
  (.ok (), {st with transactionId := v}, tr)

/-! ## Receiving containers -/

/-- `receiveResponse`: one `transferIn`; fewer than 12 bytes is an error. -/
def receiveResponse : M (List Nat) :=
  bindM transferIn fun c =>
    if c.length < PTP_HEADER_SIZE then throwErr else pureM c

/-- The up-to-3-attempts header read loop of `receiveData`: retry while the
chunk is empty, keeping the last (possibly empty) chunk. -/
def recvHeaderAttempts : Nat → M (List Nat)
  | 0 => pureM []
  | n+1 => bindM transferIn fun c =>
      if 0 < c.length then pureM c else recvHeaderAttempts n

/-- Overwrite `buf` starting at `offset` with `chunk` (`Uint8Array.set`). -/
def writeAt (buf : List Nat) (offset : Nat) (chunk : List Nat) : List Nat :=
  buf.take offset ++ chunk ++ buf.drop (offset + chunk.length)

/-- The chunk-reassembly loop of `receiveData`: keep reading while
`offset < total`, stopping at an empty chunk; a chunk that would overflow
the fixed-size buffer throws (`Uint8Array.set` range error). -/
def readChunksGo (buf : List Nat) (total offset : Nat) (st : PtpState) :
    Trace → Except Unit (List Nat) × PtpState × Trace
  | [] => if offset < total then (.error (), st, []) else (.ok buf, st, [])
  | t :: rest =>
    if offset < total then
      match t with
      | none => (.error (), st, rest)
      | some c =>
        if c.length = 0 then (.ok buf, st, rest)
        else if total < offset + c.length then (.error (), st, rest)
        else readChunksGo (writeAt buf offset c) total (offset + c.length) st rest
    else (.ok buf, st, t :: rest)

/-- `receiveData`: read a header (with the empty-read retry loop), fail on a
short header, pass a `Response` container through, and reassemble a `Data`
container whose declared length exceeds the first chunk. -/
def receiveData : M (List Nat) :=
  bindM (recvHeaderAttempts 3) fun hv =>
    if hv.length < PTP_HEADER_SIZE then throwErr
    else
      let len := le32 hv 0
      let type := le16 hv 4
      if type ≠ PTP_USB_CONTAINER_DATA then
        if type = PTP_USB_CONTAINER_RESPONSE then pureM hv else throwErr
      else if len ≤ hv.length then pureM hv
      else fun st tr =>
        readChunksGo (writeAt (List.replicate len 0) 0 hv) len hv.length st tr

/-! ## String and device-info parsing -/

/-- The character loop of `parsePtpString`: `pos` is the byte position of
the next UTF-16 code unit, and the `Nat` argument counts the remaining
declared characters; a code unit that does not fully fit stops the loop,
and NUL code units are dropped. -/
def ptpCharsGo (view : List Nat) : Nat → Nat → List Nat
  | _, 0 => []
  | pos, k+1 =>
    if view.length < pos + 2 then []
    else
      (if le16 view pos ≠ 0 then [le16 view pos] else []) ++
        ptpCharsGo view (pos + 2) k

/-- `parsePtpString`: length-prefixed little-endian UTF-16, returning the
decoded code units and the advanced offset. -/
def parsePtpString (view : List Nat) (offset : Nat) : List Nat × Nat :=
  if view.length ≤ offset then ([], offset)
  else
    let numChars := byteAt view offset
    if numChars = 0 then ([], offset + 1)
    else (ptpCharsGo view (offset + 1) numChars, offset + 1 + numChars * 2)

/-- `parseDeviceInfo`: fixed-order decode of the GetDeviceInfo payload;
`none` models a thrown `RangeError` from an out-of-range `DataView` read. -/
def parseDeviceInfo (view : List Nat) : Option DeviceInfo := do
  let offset := PTP_HEADER_SIZE
  let _standardVersion ← getUint16? view offset
  let offset := offset + 2
  let vendorExtensionId ← getUint32? view offset
  let offset := offset + 4
  let _vendorExtensionVersion ← getUint16? view offset
  let offset := offset + 2
  let vendorExtensionDesc := parsePtpString view offset
  let offset := vendorExtensionDesc.2
  let _functionalMode ← getUint16? view offset
  let offset := offset + 2
  let opsLen ← getUint32? view offset
  let offset := offset + 4 + opsLen * 2
  let eventsLen ← getUint32? view offset
  let offset := offset + 4 + eventsLen * 2
  let propsLen ← getUint32? view offset
  let offset := offset + 4 + propsLen * 2
  let capsLen ← getUint32? view offset
  let offset := offset + 4 + capsLen * 2
  let imgsLen ← getUint32? view offset
  let offset := offset + 4 + imgsLen * 2
  let manufacturer := parsePtpString view offset
  let offset := manufacturer.2
  let model := parsePtpString view offset
  let offset := model.2
  let deviceVersion := parsePtpString view offset
  let offset := deviceVersion.2
  let serialNumber := parsePtpString view offset
  some { vendorExtensionId := vendorExtensionId,
         manufacturer := manufacturer.1,
         model := model.1,
         version := deviceVersion.1,
         serial := serialNumber.1 }

/-! ## Protocol operations -/

/-- `getDeviceInfo`: send GetDeviceInfo, receive the data container (a
Response container instead is an error), require an OK response, parse. -/
def getDeviceInfoM : M DeviceInfo :=
  bindM (sendCommand PTP_OC_GetDeviceInfo []) fun _ =>
  bindM receiveData fun dataPacket =>
  if le16 dataPacket 4 = PTP_USB_CONTAINER_RESPONSE then throwErr
  else
    bindM receiveResponse fun responsePacket =>
    if le16 responsePacket 6 ≠ PTP_RC_OK then throwErr
    else
      match parseDeviceInfo dataPacket with
      | some di => pureM di
      | none => throwErr

/-- `closeSession`: send CloseSession and read its response (unchecked). -/
def closeSessionM : M Unit :=
  bindM (sendCommand PTP_OC_CloseSession []) fun _ =>
  bindM receiveResponse fun _ => pureM ()

/-- `openSession`: reset the transaction counter to -1, send OpenSession(1);
on `RC_SessionAlreadyOpened` close the session, reset again and retry once,
failing if the retry's response is not OK; any other non-OK code fails. -/
def openSessionM : M Unit :=
  bindM (setTid (-1)) fun _ =>
  bindM (sendCommand PTP_OC_OpenSession [1]) fun _ =>
  bindM receiveResponse fun response =>
  let respCode := le16 response 6
  if respCode ≠ PTP_RC_OK then
    if respCode = PTP_RC_SessionAlreadyOpened then
      bindM closeSessionM fun _ =>
      bindM (setTid (-1)) fun _ =>
      bindM (sendCommand PTP_OC_OpenSession [1]) fun _ =>
      bindM receiveResponse fun retryResp =>
      if le16 retryResp 6 ≠ PTP_RC_OK then throwErr else pureM ()
    else throwErr
  else pureM ()

/-- `getDevicePropValue`: a Response container instead of Data, or a non-OK
response, yields `none`; otherwise the value is the little-endian u32 at
offset 12 of a payload carrying at least 16 bytes. Thrown transport or
protocol errors are not handled here and propagate. -/
def getDevicePropValueM (propCode : Nat) : M (Option Nat) :=
  bindM (sendCommand PTP_OC_GetDevicePropValue [propCode]) fun _ =>
  bindM receiveData fun dataPacket =>
  if le16 dataPacket 4 = PTP_USB_CONTAINER_RESPONSE then pureM none
  else
    bindM receiveResponse fun responsePacket =>
    if le16 responsePacket 6 ≠ PTP_RC_OK then pureM none
    else if 16 ≤ dataPacket.length then pureM (some (le32 dataPacket PTP_HEADER_SIZE))
    else pureM none

/-! ## Canon event decoding -/

/-- The record loop of `parseCanonPropChanges`. The first `Nat` argument is
fuel (the source loop terminates because each record advances the offset by
`size ≥ 8`; `data.length` steps always suffice). `none` models the thrown
`RangeError` when a record's property-code read runs past the buffer. -/
def parseGo (data : List Nat) : Nat → Nat → Option (List PropValueChange)
  | 0, _ => some []
  | fuel+1, offset =>
    if offset + 8 ≤ data.length then
      if le32 data offset < 8 then some []
      else if le32 data offset = 8 ∧ le32 data (offset + 4) = 0 then some []
      else if data.length < offset + le32 data offset then some []
      else if le32 data (offset + 4) = PTP_EC_CANON_EOS_PropValueChanged then
        match getUint32? data (offset + 8) with
        | none => none
        | some propCode =>
          if (propCode = PTP_DPC_CANON_EOS_ShutterCounter ∨
              propCode = PTP_DPC_CANON_EOS_ShutterReleaseCounter) ∧
              16 ≤ le32 data offset then
            (parseGo data fuel (offset + le32 data offset)).map
              (fun cs => ⟨propCode, le32 data (offset + PTP_HEADER_SIZE)⟩ :: cs)
          else parseGo data fuel (offset + le32 data offset)
      else parseGo data fuel (offset + le32 data offset)
    else some []

/-- `parseCanonPropChanges`: iterate the event records after the header. -/
def parseCanonPropChanges (data : List Nat) : Option (List PropValueChange) :=
  parseGo data data.length PTP_HEADER_SIZE

/-- `getCanonPropChanges`: send GetEvent and decode the event payload; every
failure (thrown transport error, Response container instead of Data, parse
error) yields the empty list via the surrounding `try/catch`; a payload no
longer than the header also yields the empty list. -/
def getCanonPropChanges : M (List PropValueChange) :=
  tryCatchM
    (bindM (sendCommand PTP_OC_CANON_EOS_GetEvent []) fun _ =>
     bindM receiveData fun data =>
     if le16 data 4 = PTP_USB_CONTAINER_RESPONSE then pureM []
     else
       bindM receiveResponse fun _ =>
       if data.length ≤ PTP_HEADER_SIZE then pureM []
       else
         match parseCanonPropChanges data with
         | some cs => pureM cs
         | none => throwErr)
    (pureM [])

/-! ## Canon strategy -/

/-- `initCanon`: the four-step initialization sequence; the source's catch
block logs and rethrows, so a failure still aborts. -/
def initCanon : M Unit :=
  tryCatchM
    (bindM (sendCommand PTP_OC_CANON_EOS_SetRemoteMode [1]) fun _ =>
     bindM receiveResponse fun _ =>
     bindM (sendCommand PTP_OC_CANON_EOS_SetEventMode [1]) fun _ =>
     bindM receiveResponse fun _ =>
     bindM (sendCommand PTP_OC_CANON_EOS_SetRequestOLCInfoGroup [0x1fff]) fun _ =>
     bindM receiveResponse fun _ =>
     bindM (sendCommand PTP_OC_CANON_EOS_PCHDDCapacity [0x0fffffff, 0x1000, 0x1]) fun _ =>
     bindM receiveResponse fun _ => pureM ())
    throwErr

/-- The body of `drainShutterEvents`' `for` loop, indexed by the remaining
iterations (the source iterates at most 5 times): return the first
shutter-related change, and stop as soon as a poll returns zero events. -/
def drainLoop : Nat → M (Option Nat)
  | 0 => pureM none
  | n+1 =>
    bindM getCanonPropChanges fun evts =>
      match evts.find? (fun e =>
          e.propCode == PTP_DPC_CANON_EOS_ShutterCounter ||
          e.propCode == PTP_DPC_CANON_EOS_ShutterReleaseCounter) with
      | some e => pureM (some e.value)
      | none => if evts.length = 0 then pureM none else drainLoop n

/-- `drainShutterEvents`: run the drain loop, swallowing any error. -/
def drainShutterEvents : M (Option Nat) :=
  tryCatchM (drainLoop 5) (pureM none)

/-- The polling loop of `queryAndPollShutterProp` (up to 5 polls, with a
200 ms wait between attempts that has no observable effect here). -/
def pollLoop (propCode : Nat) : Nat → M (Option Nat)
  | 0 => pureM none
  | n+1 =>
    bindM getCanonPropChanges fun evts =>
      match evts.find? (fun e => e.propCode == propCode) with
      | some e => pureM (some e.value)
      | none => pollLoop propCode n

/-- `queryAndPollShutterProp`: request the property value, read the command
response, then poll GetEvent up to 5 times; any error yields `none`. -/
def queryAndPollShutterProp (propCode : Nat) : M (Option Nat) :=
  tryCatchM
    (bindM (sendCommand PTP_OC_CANON_EOS_RequestDevicePropValue [propCode]) fun _ =>
     bindM receiveResponse fun _ => pollLoop propCode 5)
    (pureM none)

/-- `getCanonShutterCount`: the five-stage cascade, short-circuiting on the
first non-null value and falling back to -1. -/
def getCanonShutterCount : M Int :=
  bindM drainShutterEvents fun c0 =>
  match c0 with
  | some v => pureM (v : Int)
  | none =>
  bindM (queryAndPollShutterProp PTP_DPC_CANON_EOS_ShutterCounter) fun c1 =>
  match c1 with
  | some v => pureM (v : Int)
  | none =>
  bindM (getDevicePropValueM PTP_DPC_CANON_EOS_ShutterCounter) fun c2 =>
  match c2 with
  | some v => pureM (v : Int)
  | none =>
  bindM (queryAndPollShutterProp PTP_DPC_CANON_EOS_ShutterReleaseCounter) fun c3 =>
  match c3 with
  | some v => pureM (v : Int)
  | none =>
  bindM (getDevicePropValueM PTP_DPC_CANON_EOS_ShutterReleaseCounter) fun c4 =>
  match c4 with
  | some v => pureM (v : Int)
  | none => pureM (-1)

/-- `exitCanon`: SetRemoteMode(1) then SetEventMode(0), each step's failure
swallowed by its own `try/catch`. -/
def exitCanon : M Unit :=
  bindM (tryCatchM
          (bindM (sendCommand PTP_OC_CANON_EOS_SetRemoteMode [1]) fun _ =>
           bindM receiveResponse fun _ => pureM ())
          (pureM ())) fun _ =>
  tryCatchM
    (bindM (sendCommand PTP_OC_CANON_EOS_SetEventMode [0]) fun _ =>
     bindM receiveResponse fun _ => pureM ())
    (pureM ())

/-! ## Vendor dispatch and the orchestrator (`getCameraInfo`) -/

/-- ASCII lowercasing of one UTF-16 code unit (`String.toLowerCase`
restricted to the ASCII letters, which is all the matching needs). -/
def toLowerAscii (c : Nat) : Nat := if 65 ≤ c ∧ c ≤ 90 then c + 32 else c

def lowerStr (s : List Nat) : List Nat := s.map toLowerAscii

/-- The code units of `"canon"`. -/
def canonStr : List Nat := [99, 97, 110, 111, 110]

/-- The code units of `"fuji"`. -/
def fujiStr : List Nat := [102, 117, 106, 105]

/-- `String.prototype.includes`: contiguous-substring test. -/
def listIncludes (hay needle : List Nat) : Bool :=
  needle.isPrefixOf hay ||
    match hay with
    | [] => false
    | _ :: t => listIncludes t needle

/-- The vendor-id computation of `getCameraInfo`: a manufacturer matching
"canon" (case-insensitively) forces the Canon id, else a "fuji" match
forces the Fuji id, else the device's vendor-extension id is kept. -/
def computeVendorId (manufacturer : List Nat) (vendorExtensionId : Nat) : Nat :=
  if listIncludes (lowerStr manufacturer) canonStr then PTP_VENDOR_CANON
  else if listIncludes (lowerStr manufacturer) fujiStr then PTP_VENDOR_FUJI
  else vendorExtensionId

/-- The vendor-specific portion of `getCameraInfo`: the Canon init/cascade/
exit bracket, the single Fuji direct read, or nothing, producing the
shutter count (-1 when unavailable). -/
def vendorStep (vendorId : Nat) : M Int :=
  if vendorId = PTP_VENDOR_CANON then
    tryFinallyM (bindM initCanon fun _ => getCanonShutterCount) exitCanon
  else if vendorId = PTP_VENDOR_FUJI then
    bindM (getDevicePropValueM PTP_DPC_FUJI_TotalShotCount) fun val =>
      match val with
      | some v => pureM (v : Int)
      | none => pureM (-1)
  else pureM (-1)

/-- `PtpDevice.close`: release the claimed interface (failure swallowed),
null the interface number, then close the device (failure NOT swallowed). -/
def ptpClose : M Unit :=
  bindM (tryCatchM
          (fun st tr =>
            if st.opened ∧ st.interfaceNumber ≠ none then releaseInterfaceOp st tr
            else (.ok (), st, tr))
          (pureM ())) fun _ =>
  bindM (fun st tr => (.ok (), {st with interfaceNumber := none}, tr)) fun _ =>
  deviceCloseOp

/-- The `try` body of `getCameraInfo` after `connect()`: open the session,
fetch and parse device info, run the vendor strategy, close the session,
close the device, and assemble the result. -/
def queryBody : M CameraInfo :=
  bindM openSessionM fun _ =>
  bindM getDeviceInfoM fun deviceInfo =>
  bindM (vendorStep (computeVendorId deviceInfo.manufacturer deviceInfo.vendorExtensionId)) fun shutterCount =>
  bindM closeSessionM fun _ =>
  bindM ptpClose fun _ =>
  pureM { manufacturer := deviceInfo.manufacturer,
          model := deviceInfo.model,
          version := deviceInfo.version,
          serial := deviceInfo.serial,
          shutterCount := shutterCount }

/-- `getCameraInfo` from `openSession` onward: the body runs under a
`finally` that closes the device on every exit path. -/
def runQuery : M CameraInfo := tryFinallyM queryBody ptpClose

/-! ## Codec lemmas -/

theorem radix32 (n : Nat) :
    n % 256 + 256 * (n / 256 % 256) + 65536 * (n / 65536 % 256) +
      16777216 * (n / 16777216 % 256) = n % 4294967296 := by
  omega

theorem u32ofInt_lt (x : Int) : u32ofInt x < 4294967296 := by
  unfold u32ofInt
  have h1 : 0 ≤ x % (4294967296 : Int) := Int.emod_nonneg x (by norm_num)
  have h2 : x % (4294967296 : Int) < 4294967296 :=
    Int.emod_lt_of_pos x (by norm_num)
  omega

theorem decodeCode_encodePacket (type code : Nat) (tid : Int) (params : List Nat) :
    decodeCode (encodePacket type code tid params) = code % 65536 := by
  simp only [decodeCode, encodePacket, u32octets, u16octets, le16, byteAt,
    List.cons_append, List.nil_append, List.getD_cons_succ, List.getD_cons_zero]
  omega

theorem decodeTid_encodePacket (type code : Nat) (tid : Int) (params : List Nat) :
    decodeTid (encodePacket type code tid params) = u32ofInt tid := by
  have hlt := u32ofInt_lt tid
  simp only [decodeTid, encodePacket, u32octets, u16octets, le32, byteAt,
    List.cons_append, List.nil_append, List.getD_cons_succ, List.getD_cons_zero]
  omega

/-! ## State-invariance infrastructure

Receiving containers never mutates the device object; only `sendCommand`
(and the close path) does. These lemmas record that, and characterize the
state change of each sending operation. -/

/-- A computation that never changes the modelled device state. -/
def StInv {α : Type} (x : M α) : Prop := ∀ st tr, (x st tr).2.1 = st

theorem stInv_pureM {α : Type} (a : α) : StInv (pureM a) := fun _ _ => rfl

theorem stInv_throwErr {α : Type} : StInv (throwErr (α := α)) := fun _ _ => rfl

theorem stInv_transferIn : StInv transferIn := by
  intro st tr
  unfold transferIn
  match tr with
  | [] => rfl
  | none :: rest => rfl
  | some c :: rest => rfl

theorem stInv_transferOut : StInv transferOut := by
  intro st tr
  unfold transferOut
  match tr with
  | [] => rfl
  | none :: rest => rfl
  | some c :: rest => rfl

theorem stInv_bindM {α β : Type} {x : M α} {f : α → M β}
    (hx : StInv x) (hf : ∀ a, StInv (f a)) : StInv (bindM x f) := by
  intro st tr
  unfold bindM
  rcases hxx : x st tr with ⟨r, st', tr'⟩
  have hst : st' = st := by have := hx st tr; rw [hxx] at this; exact this
  cases r with
  | error e => exact hst
  | ok a => rw [hst]; exact hf a st tr'

theorem stInv_tryCatchM {α : Type} {x h : M α}
    (hx : StInv x) (hh : StInv h) : StInv (tryCatchM x h) := by
  intro st tr
  unfold tryCatchM
  rcases hxx : x st tr with ⟨r, st', tr'⟩
  have hst : st' = st := by have := hx st tr; rw [hxx] at this; exact this
  cases r with
  | error e => rw [show (h st' tr').2.1 = st' from hh st' tr']; exact hst
  | ok a => exact hst

theorem stInv_receiveResponse : StInv receiveResponse := by
  unfold receiveResponse
  refine stInv_bindM stInv_transferIn (fun c => ?_)
  dsimp only
  split
  · exact stInv_throwErr
  · exact stInv_pureM c

theorem stInv_recvHeaderAttempts (n : Nat) : StInv (recvHeaderAttempts n) := by
  induction n with
  | zero => exact stInv_pureM []
  | succ n ih =>
    unfold recvHeaderAttempts
    refine stInv_bindM stInv_transferIn (fun c => ?_)
    dsimp only
    split
    · exact stInv_pureM c
    · exact ih

theorem readChunksGo_state (buf : List Nat) (total offset : Nat)
    (st : PtpState) (tr : Trace) :
    (readChunksGo buf total offset st tr).2.1 = st := by
  induction tr generalizing buf offset with
  | nil =>
    unfold readChunksGo
    split <;> rfl
  | cons t rest ih =>
    unfold readChunksGo
    split
    · match t with
      | none => rfl
      | some c =>
        dsimp only
        split
        · rfl
        · split
          · rfl
          · exact ih _ _
    · rfl

theorem stInv_receiveData : StInv receiveData := by
  unfold receiveData
  refine stInv_bindM (stInv_recvHeaderAttempts 3) (fun hv => ?_)
  dsimp only
  split
  · exact stInv_throwErr
  · split
    · split
      · exact stInv_pureM hv
      · exact stInv_throwErr
    · split
      · exact stInv_pureM hv
      · exact fun st tr => readChunksGo_state _ _ _ st tr

theorem sendCommand_state (code : Nat) (params : List Nat)
    (st : PtpState) (tr : Trace) :
    (sendCommand code params st tr).2.1 =
      {st with transactionId := st.transactionId + 1,
               sent := st.sent ++ [encodePacket PTP_USB_CONTAINER_COMMAND code
                         (st.transactionId + 1) params]} := by
  unfold sendCommand
  exact stInv_transferOut _ tr

theorem bindM_state_of_inv {α β : Type} {x : M α} {f : α → M β}
    (hf : ∀ a, StInv (f a)) (st : PtpState) (tr : Trace) :
    ((bindM x f) st tr).2.1 = (x st tr).2.1 := by
  unfold bindM
  rcases hxx : x st tr with ⟨r, st', tr'⟩
  cases r with
  | error e => rfl
  | ok a => exact hf a st' tr'

theorem tryCatchM_state_of_inv {α : Type} {x h : M α}
    (hh : StInv h) (st : PtpState) (tr : Trace) :
    ((tryCatchM x h) st tr).2.1 = (x st tr).2.1 := by
  unfold tryCatchM
  rcases hxx : x st tr with ⟨r, st', tr'⟩
  cases r with
  | error e => exact hh st' tr'
  | ok a => rfl

/-- `getCanonPropChanges` always performs exactly one state change: the
recording of one GetEvent command with the next transaction id. -/
theorem getCanonPropChanges_state (st : PtpState) (tr : Trace) :
    (getCanonPropChanges st tr).2.1 =
      {st with transactionId := st.transactionId + 1,
               sent := st.sent ++ [encodePacket PTP_USB_CONTAINER_COMMAND
                         PTP_OC_CANON_EOS_GetEvent (st.transactionId + 1) []]} := by
  unfold getCanonPropChanges
  rw [tryCatchM_state_of_inv (stInv_pureM [])]
  rw [bindM_state_of_inv]
  · exact sendCommand_state _ _ st tr
  · intro a
    refine stInv_bindM stInv_receiveData (fun data => ?_)
    dsimp only
    split
    · exact stInv_pureM []
    · refine stInv_bindM stInv_receiveResponse (fun r => ?_)
      dsimp only
      split
      · exact stInv_pureM []
      · split
        · exact stInv_pureM _
        · exact stInv_throwErr

/-! ## Totality (never-throws) infrastructure -/

/-- A computation that returns normally on every device behaviour. -/
def AlwaysOk {α : Type} (x : M α) : Prop :=
  ∀ st tr, ∃ a st' tr', x st tr = (.ok a, st', tr')

theorem alwaysOk_pureM {α : Type} (a : α) : AlwaysOk (pureM a) :=
  fun st tr => ⟨a, st, tr, rfl⟩

theorem alwaysOk_tryCatchM {α : Type} {x h : M α} (hh : AlwaysOk h) :
    AlwaysOk (tryCatchM x h) := by
  intro st tr
  unfold tryCatchM
  rcases hxx : x st tr with ⟨r, st', tr'⟩
  cases r with
  | error e =>
    rcases hh st' tr' with ⟨a, st'', tr'', heq⟩
    exact ⟨a, st'', tr'', heq⟩
  | ok a => exact ⟨a, st', tr', rfl⟩

theorem alwaysOk_bindM {α β : Type} {x : M α} {f : α → M β}
    (hx : AlwaysOk x) (hf : ∀ a, AlwaysOk (f a)) : AlwaysOk (bindM x f) := by
  intro st tr
  unfold bindM
  rcases hx st tr with ⟨a, sta, tra, heq⟩
  rw [heq]
  rcases hf a sta tra with ⟨b, stb, trb, heqb⟩
  exact ⟨b, stb, trb, heqb⟩

theorem alwaysOk_getCanonPropChanges : AlwaysOk getCanonPropChanges :=
  alwaysOk_tryCatchM (alwaysOk_pureM [])

theorem alwaysOk_drainLoop (n : Nat) : AlwaysOk (drainLoop n) := by
  induction n with
  | zero => exact alwaysOk_pureM none
  | succ n ih =>
    unfold drainLoop
    refine alwaysOk_bindM alwaysOk_getCanonPropChanges (fun evts => ?_)
    dsimp only
    cases evts.find? (fun e =>
        e.propCode == PTP_DPC_CANON_EOS_ShutterCounter ||
        e.propCode == PTP_DPC_CANON_EOS_ShutterReleaseCounter) with
    | none =>
      dsimp only
      split
      · exact alwaysOk_pureM none
      · exact ih
    | some e => exact alwaysOk_pureM (some e.value)

theorem alwaysOk_drainShutterEvents : AlwaysOk drainShutterEvents :=
  alwaysOk_tryCatchM (alwaysOk_pureM none)

theorem alwaysOk_queryAndPollShutterProp (propCode : Nat) :
    AlwaysOk (queryAndPollShutterProp propCode) :=
  alwaysOk_tryCatchM (alwaysOk_pureM none)

theorem alwaysOk_exitCanon : AlwaysOk exitCanon := by
  unfold exitCanon
  exact alwaysOk_bindM (alwaysOk_tryCatchM (alwaysOk_pureM ()))
    (fun _ => alwaysOk_tryCatchM (alwaysOk_pureM ()))

/-! ## Counting GetEvent polls -/

/-- The number of recorded packets whose header code is Canon GetEvent:
each drain/poll iteration sends exactly one. -/
def countGetEvent (pkts : List (List Nat)) : Nat :=
  (pkts.filter (fun p => decodeCode p == PTP_OC_CANON_EOS_GetEvent)).length

theorem countGetEvent_append (a b : List (List Nat)) :
    countGetEvent (a ++ b) = countGetEvent a + countGetEvent b := by
  simp [countGetEvent, List.filter_append]

theorem countGetEvent_getEventPacket (tid : Int) :
    countGetEvent [encodePacket PTP_USB_CONTAINER_COMMAND
      PTP_OC_CANON_EOS_GetEvent tid []] = 1 := by
  simp [countGetEvent, List.filter, decodeCode_encodePacket, PTP_OC_CANON_EOS_GetEvent]

theorem getCanonPropChanges_countGetEvent (st : PtpState) (tr : Trace) :
    countGetEvent ((getCanonPropChanges st tr).2.1).sent =
      countGetEvent st.sent + 1 := by
  rw [getCanonPropChanges_state]
  simp only [countGetEvent_append, countGetEvent_getEventPacket]

theorem drainLoop_countGetEvent (n : Nat) (st : PtpState) (tr : Trace) :
    countGetEvent ((drainLoop n st tr).2.1).sent ≤ countGetEvent st.sent + n := by
  induction n generalizing st tr with
  | zero => simp [drainLoop, pureM]
  | succ n ih =>
    unfold drainLoop bindM
    rcases hg : getCanonPropChanges st tr with ⟨r, st1, tr1⟩
    have hst1 : countGetEvent st1.sent = countGetEvent st.sent + 1 := by
      have := getCanonPropChanges_countGetEvent st tr
      rw [hg] at this
      exact this
    cases r with
    | error e => dsimp only; omega
    | ok evts =>
      dsimp only
      cases evts.find? (fun e =>
          e.propCode == PTP_DPC_CANON_EOS_ShutterCounter ||
          e.propCode == PTP_DPC_CANON_EOS_ShutterReleaseCounter) with
      | some e => simp only [pureM]; omega
      | none =>
        dsimp only
        split
        · simp only [pureM]; omega
        · have := ih st1 tr1
          omega

/-! ## Claim C1 -/

/-- Claim C1: the Canon shutter-count cascade runs its stages in the fixed
order drain, request+poll of 0xD1AC, direct read of 0xD1AC, request+poll of
0xD167, direct read of 0xD167; it returns the first non-null value, with
the device state and trace exactly as the succeeding stage left them (so no
later stage is attempted); if every stage yields no value the result is -1
with no error; the drain stage sends at most 5 GetEvent polls and stops as
soon as a poll returns zero events. -/
theorem claim_C1 :
    (∀ st tr v st' tr',
       drainShutterEvents st tr = (.ok (some v), st', tr') →
       getCanonShutterCount st tr = (.ok (v : Int), st', tr'))
  ∧ (∀ st tr st1 tr1 v st2 tr2,
       drainShutterEvents st tr = (.ok none, st1, tr1) →
       queryAndPollShutterProp PTP_DPC_CANON_EOS_ShutterCounter st1 tr1 =
         (.ok (some v), st2, tr2) →
       getCanonShutterCount st tr = (.ok (v : Int), st2, tr2))
  ∧ (∀ st tr st1 tr1 st2 tr2 v st3 tr3,
       drainShutterEvents st tr = (.ok none, st1, tr1) →
       queryAndPollShutterProp PTP_DPC_CANON_EOS_ShutterCounter st1 tr1 =
         (.ok none, st2, tr2) →
       getDevicePropValueM PTP_DPC_CANON_EOS_ShutterCounter st2 tr2 =
         (.ok (some v), st3, tr3) →
       getCanonShutterCount st tr = (.ok (v : Int), st3, tr3))
  ∧ (∀ st tr st1 tr1 st2 tr2 st3 tr3 v st4 tr4,
       drainShutterEvents st tr = (.ok none, st1, tr1) →
       queryAndPollShutterProp PTP_DPC_CANON_EOS_ShutterCounter st1 tr1 =
         (.ok none, st2, tr2) →
       getDevicePropValueM PTP_DPC_CANON_EOS_ShutterCounter st2 tr2 =
         (.ok none, st3, tr3) →
       queryAndPollShutterProp PTP_DPC_CANON_EOS_ShutterReleaseCounter st3 tr3 =
         (.ok (some v), st4, tr4) →
       getCanonShutterCount st tr = (.ok (v : Int), st4, tr4))
  ∧ (∀ st tr st1 tr1 st2 tr2 st3 tr3 st4 tr4 v st5 tr5,
       drainShutterEvents st tr = (.ok none, st1, tr1) →
       queryAndPollShutterProp PTP_DPC_CANON_EOS_ShutterCounter st1 tr1 =
         (.ok none, st2, tr2) →
       getDevicePropValueM PTP_DPC_CANON_EOS_ShutterCounter st2 tr2 =
         (.ok none, st3, tr3) →
       queryAndPollShutterProp PTP_DPC_CANON_EOS_ShutterReleaseCounter st3 tr3 =
         (.ok none, st4, tr4) →
       getDevicePropValueM PTP_DPC_CANON_EOS_ShutterReleaseCounter st4 tr4 =
         (.ok (some v), st5, tr5) →
       getCanonShutterCount st tr = (.ok (v : Int), st5, tr5))
  ∧ (∀ st tr st1 tr1 st2 tr2 st3 tr3 st4 tr4 st5 tr5,
       drainShutterEvents st tr = (.ok none, st1, tr1) →
       queryAndPollShutterProp PTP_DPC_CANON_EOS_ShutterCounter st1 tr1 =
         (.ok none, st2, tr2) →
       getDevicePropValueM PTP_DPC_CANON_EOS_ShutterCounter st2 tr2 =
         (.ok none, st3, tr3) →
       queryAndPollShutterProp PTP_DPC_CANON_EOS_ShutterReleaseCounter st3 tr3 =
         (.ok none, st4, tr4) →
       getDevicePropValueM PTP_DPC_CANON_EOS_ShutterReleaseCounter st4 tr4 =
         (.ok none, st5, tr5) →
       getCanonShutterCount st tr = (.ok (-1 : Int), st5, tr5))
  ∧ (∀ st tr,
       countGetEvent ((drainShutterEvents st tr).2.1).sent ≤
         countGetEvent st.sent + 5)
  ∧ (∀ n st tr st1 tr1,
       getCanonPropChanges st tr = (.ok [], st1, tr1) →
       drainLoop (n+1) st tr = (.ok none, st1, tr1)) := by
  refine ⟨?_, ?_, ?_, ?_, ?_, ?_, ?_, ?_⟩
  · intro st tr v st' tr' h1
    simp only [getCanonShutterCount, bindM, h1, pureM]
  · intro st tr st1 tr1 v st2 tr2 h1 h2
    simp only [getCanonShutterCount, bindM, h1, h2, pureM]
  · intro st tr st1 tr1 st2 tr2 v st3 tr3 h1 h2 h3
    simp only [getCanonShutterCount, bindM, h1, h2, h3, pureM]
  · intro st tr st1 tr1 st2 tr2 st3 tr3 v st4 tr4 h1 h2 h3 h4
    simp only [getCanonShutterCount, bindM, h1, h2, h3, h4, pureM]
  · intro st tr st1 tr1 st2 tr2 st3 tr3 st4 tr4 v st5 tr5 h1 h2 h3 h4 h5
    simp only [getCanonShutterCount, bindM, h1, h2, h3, h4, h5, pureM]
  · intro st tr st1 tr1 st2 tr2 st3 tr3 st4 tr4 st5 tr5 h1 h2 h3 h4 h5
    simp only [getCanonShutterCount, bindM, h1, h2, h3, h4, h5, pureM]
  · intro st tr
    unfold drainShutterEvents
    rcases hd : drainLoop 5 st tr with ⟨r, st1, tr1⟩
    have hb := drainLoop_countGetEvent 5 st tr
    rw [hd] at hb
    unfold tryCatchM
    rw [hd]
    cases r with
    | error e => simp only [pureM]; exact hb
    | ok a => exact hb
  · intro n st tr st1 tr1 hg
    simp [drainLoop, bindM, hg, pureM]

def c1State : PtpState :=
  { transactionId := 0, sent := [], interfaceNumber := some 0, opened := true }

/-- A GetEvent data container holding one PropValueChanged record for
the shutter counter 0xD1AC with value 1234. -/
def c1EvtData : List Nat :=
  [28,0,0,0, 2,0, 22,145, 0,0,0,0, 16,0,0,0, 137,193,0,0, 172,209,0,0, 210,4,0,0]

def c1RespOK : List Nat := [12,0,0,0, 3,0, 1,32, 0,0,0,0]

def c1Trace : Trace := [some [], some c1EvtData, some c1RespOK]

def c1After : PtpState :=
  { transactionId := 1, sent := [[12,0,0,0, 1,0, 22,145, 1,0,0,0]],
    interfaceNumber := some 0, opened := true }

/-- Witness for C1: on a concrete trace whose first drain poll reports a
0xD1AC change of value 1234, the cascade returns 1234 having consumed
exactly the drain stage's trace. -/
theorem claim_C1_witness :
    getCanonShutterCount c1State c1Trace = (.ok 1234, c1After, []) :=
  claim_C1.1 c1State c1Trace 1234 c1After [] (by rfl)

/-! ## Claim C10 -/

/-- Claim C10: `getCanonPropChanges` is total over device behaviour: it
returns normally with a (possibly empty) list on every state and trace;
a thrown transport error (a rejected transfer), a Response container
arriving instead of a Data container, and a data payload no longer than
the 12-byte header all yield the empty list. -/
theorem claim_C10 :
    (∀ st tr, ∃ evts st' tr', getCanonPropChanges st tr = (.ok evts, st', tr'))
  ∧ (∀ st rest, (getCanonPropChanges st (none :: rest)).1 = .ok [])
  ∧ (∀ st ack resp rest,
       12 ≤ resp.length → le16 resp 4 = PTP_USB_CONTAINER_RESPONSE →
       getCanonPropChanges st (some ack :: some resp :: rest) =
         (.ok [],
          {st with transactionId := st.transactionId + 1,
                   sent := st.sent ++ [encodePacket PTP_USB_CONTAINER_COMMAND
                             PTP_OC_CANON_EOS_GetEvent (st.transactionId + 1) []]},
          rest))
  ∧ (∀ st ack dataB resp rest,
       dataB.length = 12 → le32 dataB 0 = 12 →
       le16 dataB 4 = PTP_USB_CONTAINER_DATA → 12 ≤ resp.length →
       getCanonPropChanges st (some ack :: some dataB :: some resp :: rest) =
         (.ok [],
          {st with transactionId := st.transactionId + 1,
                   sent := st.sent ++ [encodePacket PTP_USB_CONTAINER_COMMAND
                             PTP_OC_CANON_EOS_GetEvent (st.transactionId + 1) []]},
          rest)) := by
  refine ⟨fun st tr => alwaysOk_getCanonPropChanges st tr, ?_, ?_, ?_⟩
  · intro st rest
    simp [getCanonPropChanges, tryCatchM, bindM, sendCommand, transferOut, pureM]
  · intro st ack resp rest hlen htype
    simp [getCanonPropChanges, tryCatchM, bindM, sendCommand, transferOut,
      receiveData, recvHeaderAttempts, transferIn, pureM, htype,
      PTP_USB_CONTAINER_RESPONSE, PTP_USB_CONTAINER_DATA, PTP_HEADER_SIZE,
      show 0 < resp.length by omega, show ¬(resp.length < 12) by omega]
  · intro st ack dataB resp rest hdlen hd0 hd4 hrlen
    simp [getCanonPropChanges, tryCatchM, bindM, sendCommand, transferOut,
      receiveData, receiveResponse, recvHeaderAttempts, transferIn, pureM,
      hdlen, hd0, hd4,
      PTP_USB_CONTAINER_RESPONSE, PTP_USB_CONTAINER_DATA, PTP_HEADER_SIZE,
      show ¬(resp.length < 12) by omega]

def c10State : PtpState :=
  { transactionId := 4, sent := [], interfaceNumber := some 0, opened := true }

/-- A bare Response container (code OK) of exactly 12 bytes. -/
def c10Resp : List Nat := [12,0,0,0, 3,0, 1,32, 0,0,0,0]

/-- Witness for C10: a GetEvent exchange answered by a Response container
instead of a Data container yields the empty list. -/
theorem claim_C10_witness :
    getCanonPropChanges c10State [some [], some c10Resp] =
      (.ok [],
       {c10State with transactionId := 5,
                      sent := [encodePacket PTP_USB_CONTAINER_COMMAND
                                PTP_OC_CANON_EOS_GetEvent 5 []]},
       []) := by
  have h := claim_C10.2.2.1 c10State [] c10Resp [] (by decide) (by decide)
  simpa using h

/-! ## Claim C2 -/

def c2State : PtpState :=
  { transactionId := 0, sent := [], interfaceNumber := some 0, opened := true }

/-- Counterexample to C2 as stated: on a trace where the drain poll and the
request+poll stage fail (each swallowed, yielding no value) and the direct
`getDevicePropValue` stage's send then throws, the thrown error is NOT
caught at that stage: the whole cascade raises instead of proceeding. -/
theorem claim_C2_counterexample :
    (getCanonShutterCount c2State [none, none, none]).1 = .error () := by
  rfl

/-- Claim C2, amended: errors thrown inside the drain stage and the
request+poll stages are caught there and treated as "no value"; the direct
`getDevicePropValue` stages (including the Fuji direct read) propagate
thrown transport errors instead of swallowing them; and a failure during
the Canon initialization sequence aborts the whole acquisition (the exit
sequence still runs, preserving the error). -/
theorem claim_C2 :
    (∀ st tr, ∃ a st' tr', drainShutterEvents st tr = (.ok a, st', tr'))
  ∧ (∀ propCode st tr, ∃ a st' tr',
       queryAndPollShutterProp propCode st tr = (.ok a, st', tr'))
  ∧ (∀ propCode st rest,
       getDevicePropValueM propCode st (none :: rest) =
         (.error (),
          {st with transactionId := st.transactionId + 1,
                   sent := st.sent ++ [encodePacket PTP_USB_CONTAINER_COMMAND
                             PTP_OC_GetDevicePropValue (st.transactionId + 1)
                             [propCode]]},
          rest))
  ∧ (∀ st tr st1 tr1,
       initCanon st tr = (.error (), st1, tr1) →
       (vendorStep PTP_VENDOR_CANON st tr).1 = .error ()) := by
  refine ⟨fun st tr => alwaysOk_drainShutterEvents st tr,
          fun propCode st tr => alwaysOk_queryAndPollShutterProp propCode st tr,
          ?_, ?_⟩
  · intro propCode st rest
    simp [getDevicePropValueM, bindM, sendCommand, transferOut]
  · intro st tr st1 tr1 hinit
    have hcanon : vendorStep PTP_VENDOR_CANON =
        tryFinallyM (bindM initCanon fun _ => getCanonShutterCount) exitCanon := by
      unfold vendorStep
      simp
    rw [hcanon]
    unfold tryFinallyM bindM
    rw [hinit]
    rcases alwaysOk_exitCanon st1 tr1 with ⟨u, st3, tr3, heq⟩
    dsimp only
    rw [heq]

/-- Witness for the amended C2: a Canon acquisition whose initialization's
very first transfer throws aborts with an error (after the exit
sequence). -/
theorem claim_C2_witness :
    (vendorStep PTP_VENDOR_CANON c2State [none]).1 = .error () :=
  claim_C2.2.2.2 c2State [none]
    { c2State with
        transactionId := 1,
        sent := [encodePacket PTP_USB_CONTAINER_COMMAND
                   PTP_OC_CANON_EOS_SetRemoteMode 1 [1]] }
    [] (by rfl)

/-! ## Claim C3 -/

/-- Claim C3: when the first OpenSession gets response code 0x201E (session
already opened), exactly one CloseSession and exactly one retried
OpenSession are sent — three packets in all, with the rest of the trace
untouched; a non-OK response to the retried OpenSession raises with no
further retry; any other non-OK response to the first OpenSession raises
immediately having sent only the one OpenSession packet. -/
theorem claim_C3 :
    (∀ st b1 r1 b2 r2 b3 r3 rest,
       12 ≤ r1.length → le16 r1 6 = PTP_RC_SessionAlreadyOpened →
       12 ≤ r2.length → 12 ≤ r3.length → le16 r3 6 = PTP_RC_OK →
       openSessionM st
         (some b1 :: some r1 :: some b2 :: some r2 :: some b3 :: some r3 :: rest) =
         (.ok (),
          {st with transactionId := 0,
                   sent := st.sent ++
                     [encodePacket PTP_USB_CONTAINER_COMMAND PTP_OC_OpenSession 0 [1],
                      encodePacket PTP_USB_CONTAINER_COMMAND PTP_OC_CloseSession 1 [],
                      encodePacket PTP_USB_CONTAINER_COMMAND PTP_OC_OpenSession 0 [1]]},
          rest))
  ∧ (∀ st b1 r1 b2 r2 b3 r3 rest,
       12 ≤ r1.length → le16 r1 6 = PTP_RC_SessionAlreadyOpened →
       12 ≤ r2.length → 12 ≤ r3.length → le16 r3 6 ≠ PTP_RC_OK →
       openSessionM st
         (some b1 :: some r1 :: some b2 :: some r2 :: some b3 :: some r3 :: rest) =
         (.error (),
          {st with transactionId := 0,
                   sent := st.sent ++
                     [encodePacket PTP_USB_CONTAINER_COMMAND PTP_OC_OpenSession 0 [1],
                      encodePacket PTP_USB_CONTAINER_COMMAND PTP_OC_CloseSession 1 [],
                      encodePacket PTP_USB_CONTAINER_COMMAND PTP_OC_OpenSession 0 [1]]},
          rest))
  ∧ (∀ st b1 r1 rest,
       12 ≤ r1.length → le16 r1 6 ≠ PTP_RC_OK →
       le16 r1 6 ≠ PTP_RC_SessionAlreadyOpened →
       openSessionM st (some b1 :: some r1 :: rest) =
         (.error (),
          {st with transactionId := 0,
                   sent := st.sent ++
                     [encodePacket PTP_USB_CONTAINER_COMMAND PTP_OC_OpenSession 0 [1]]},
          rest)) := by
  refine ⟨?_, ?_, ?_⟩
  · intro st b1 r1 b2 r2 b3 r3 rest h1len h1 h2len h3len h3
    simp [openSessionM, setTid, bindM, sendCommand, transferOut, receiveResponse,
      transferIn, closeSessionM, pureM, throwErr, h1, h3,
      PTP_RC_OK, PTP_RC_SessionAlreadyOpened, PTP_HEADER_SIZE,
      show ¬(r1.length < 12) by omega, show ¬(r2.length < 12) by omega,
      show ¬(r3.length < 12) by omega]
  · intro st b1 r1 b2 r2 b3 r3 rest h1len h1 h2len h3len h3
    simp only [PTP_RC_OK] at h3
    simp [openSessionM, setTid, bindM, sendCommand, transferOut, receiveResponse,
      transferIn, closeSessionM, pureM, throwErr, h1, h3,
      PTP_RC_OK, PTP_RC_SessionAlreadyOpened, PTP_HEADER_SIZE,
      show ¬(r1.length < 12) by omega, show ¬(r2.length < 12) by omega,
      show ¬(r3.length < 12) by omega]
  · intro st b1 r1 rest h1len hok h201e
    simp only [PTP_RC_OK] at hok
    simp only [PTP_RC_SessionAlreadyOpened] at h201e
    simp [openSessionM, setTid, bindM, sendCommand, transferOut, receiveResponse,
      transferIn, closeSessionM, pureM, throwErr, hok, h201e,
      PTP_RC_OK, PTP_RC_SessionAlreadyOpened, PTP_HEADER_SIZE,
      show ¬(r1.length < 12) by omega]

def c3State : PtpState :=
  { transactionId := 7, sent := [], interfaceNumber := some 0, opened := true }

/-- A Response container carrying code 0x201E (session already opened). -/
def c3RespConflict : List Nat := [12,0,0,0, 3,0, 30,32, 0,0,0,0]

def c3RespOK : List Nat := [12,0,0,0, 3,0, 1,32, 0,0,0,0]

/-- Witness for C3: a concrete conflict-then-success exchange sends exactly
OpenSession, CloseSession, OpenSession and succeeds. -/
theorem claim_C3_witness :
    openSessionM c3State
      (some [] :: some c3RespConflict :: some [] :: some c3RespOK ::
        some [] :: some c3RespOK :: []) =
      (.ok (),
       {c3State with transactionId := 0,
                     sent := [encodePacket PTP_USB_CONTAINER_COMMAND PTP_OC_OpenSession 0 [1],
                              encodePacket PTP_USB_CONTAINER_COMMAND PTP_OC_CloseSession 1 [],
                              encodePacket PTP_USB_CONTAINER_COMMAND PTP_OC_OpenSession 0 [1]]},
       []) := by
  have h := claim_C3.1 c3State [] c3RespConflict [] c3RespOK [] c3RespOK []
    (by decide) (by decide) (by decide) (by decide) (by decide)
  simpa using h

/-! ## Claim C4 -/

/-- On every device behaviour, the packets `openSession` records beyond
those already recorded are an OpenSession packet with encoded transaction
id 0, optionally followed by a CloseSession packet with id 1, optionally
followed by the retried OpenSession packet, again with id 0. -/
theorem openSession_delta (st : PtpState) (tr : Trace) :
    ((openSessionM st tr).2.1).sent.drop st.sent.length =
        [encodePacket PTP_USB_CONTAINER_COMMAND PTP_OC_OpenSession 0 [1]] ∨
    ((openSessionM st tr).2.1).sent.drop st.sent.length =
        [encodePacket PTP_USB_CONTAINER_COMMAND PTP_OC_OpenSession 0 [1],
         encodePacket PTP_USB_CONTAINER_COMMAND PTP_OC_CloseSession 1 []] ∨
    ((openSessionM st tr).2.1).sent.drop st.sent.length =
        [encodePacket PTP_USB_CONTAINER_COMMAND PTP_OC_OpenSession 0 [1],
         encodePacket PTP_USB_CONTAINER_COMMAND PTP_OC_CloseSession 1 [],
         encodePacket PTP_USB_CONTAINER_COMMAND PTP_OC_OpenSession 0 [1]] := by
  rcases tr with _ | ⟨a1, tr⟩
  · left
    simp [openSessionM, setTid, bindM, sendCommand, transferOut, receiveResponse,
      transferIn, closeSessionM, pureM, throwErr, List.append_assoc, List.drop_left,
      PTP_RC_OK, PTP_RC_SessionAlreadyOpened, PTP_HEADER_SIZE]
  rcases a1 with _ | b1
  · left
    simp [openSessionM, setTid, bindM, sendCommand, transferOut, receiveResponse,
      transferIn, closeSessionM, pureM, throwErr, List.append_assoc, List.drop_left,
      PTP_RC_OK, PTP_RC_SessionAlreadyOpened, PTP_HEADER_SIZE]
  rcases tr with _ | ⟨a2, tr⟩
  · left
    simp [openSessionM, setTid, bindM, sendCommand, transferOut, receiveResponse,
      transferIn, closeSessionM, pureM, throwErr, List.append_assoc, List.drop_left,
      PTP_RC_OK, PTP_RC_SessionAlreadyOpened, PTP_HEADER_SIZE]
  rcases a2 with _ | r1
  · left
    simp [openSessionM, setTid, bindM, sendCommand, transferOut, receiveResponse,
      transferIn, closeSessionM, pureM, throwErr, List.append_assoc, List.drop_left,
      PTP_RC_OK, PTP_RC_SessionAlreadyOpened, PTP_HEADER_SIZE]
  by_cases hlen : r1.length < 12
  · left
    simp [openSessionM, setTid, bindM, sendCommand, transferOut, receiveResponse,
      transferIn, closeSessionM, pureM, throwErr, List.append_assoc, List.drop_left,
      PTP_RC_OK, PTP_RC_SessionAlreadyOpened, PTP_HEADER_SIZE, hlen]
  by_cases hok : le16 r1 6 = 8193
  · left
    simp [openSessionM, setTid, bindM, sendCommand, transferOut, receiveResponse,
      transferIn, closeSessionM, pureM, throwErr, List.append_assoc, List.drop_left,
      PTP_RC_OK, PTP_RC_SessionAlreadyOpened, PTP_HEADER_SIZE, hlen, hok]
  by_cases h201 : le16 r1 6 = 8222
  case neg =>
    left
    simp [openSessionM, setTid, bindM, sendCommand, transferOut, receiveResponse,
      transferIn, closeSessionM, pureM, throwErr, List.append_assoc, List.drop_left,
      PTP_RC_OK, PTP_RC_SessionAlreadyOpened, PTP_HEADER_SIZE, hlen, hok, h201]
  rcases tr with _ | ⟨a3, tr⟩
  · right; left
    simp [openSessionM, setTid, bindM, sendCommand, transferOut, receiveResponse,
      transferIn, closeSessionM, pureM, throwErr, List.append_assoc, List.drop_left,
      PTP_RC_OK, PTP_RC_SessionAlreadyOpened, PTP_HEADER_SIZE, hlen, hok, h201]
  rcases a3 with _ | b2
  · right; left
    simp [openSessionM, setTid, bindM, sendCommand, transferOut, receiveResponse,
      transferIn, closeSessionM, pureM, throwErr, List.append_assoc, List.drop_left,
      PTP_RC_OK, PTP_RC_SessionAlreadyOpened, PTP_HEADER_SIZE, hlen, hok, h201]
  rcases tr with _ | ⟨a4, tr⟩
  · right; left
    simp [openSessionM, setTid, bindM, sendCommand, transferOut, receiveResponse,
      transferIn, closeSessionM, pureM, throwErr, List.append_assoc, List.drop_left,
      PTP_RC_OK, PTP_RC_SessionAlreadyOpened, PTP_HEADER_SIZE, hlen, hok, h201]
  rcases a4 with _ | r2
  · right; left
    simp [openSessionM, setTid, bindM, sendCommand, transferOut, receiveResponse,
      transferIn, closeSessionM, pureM, throwErr, List.append_assoc, List.drop_left,
      PTP_RC_OK, PTP_RC_SessionAlreadyOpened, PTP_HEADER_SIZE, hlen, hok, h201]
  by_cases h2len : r2.length < 12
  · right; left
    simp [openSessionM, setTid, bindM, sendCommand, transferOut, receiveResponse,
      transferIn, closeSessionM, pureM, throwErr, List.append_assoc, List.drop_left,
      PTP_RC_OK, PTP_RC_SessionAlreadyOpened, PTP_HEADER_SIZE, hlen, hok, h201, h2len]
  rcases tr with _ | ⟨a5, tr⟩
  · right; right
    simp [openSessionM, setTid, bindM, sendCommand, transferOut, receiveResponse,
      transferIn, closeSessionM, pureM, throwErr, List.append_assoc, List.drop_left,
      PTP_RC_OK, PTP_RC_SessionAlreadyOpened, PTP_HEADER_SIZE, hlen, hok, h201, h2len]
  rcases a5 with _ | b3
  · right; right
    simp [openSessionM, setTid, bindM, sendCommand, transferOut, receiveResponse,
      transferIn, closeSessionM, pureM, throwErr, List.append_assoc, List.drop_left,
      PTP_RC_OK, PTP_RC_SessionAlreadyOpened, PTP_HEADER_SIZE, hlen, hok, h201, h2len]
  rcases tr with _ | ⟨a6, tr⟩
  · right; right
    simp [openSessionM, setTid, bindM, sendCommand, transferOut, receiveResponse,
      transferIn, closeSessionM, pureM, throwErr, List.append_assoc, List.drop_left,
      PTP_RC_OK, PTP_RC_SessionAlreadyOpened, PTP_HEADER_SIZE, hlen, hok, h201, h2len]
  rcases a6 with _ | r3
  · right; right
    simp [openSessionM, setTid, bindM, sendCommand, transferOut, receiveResponse,
      transferIn, closeSessionM, pureM, throwErr, List.append_assoc, List.drop_left,
      PTP_RC_OK, PTP_RC_SessionAlreadyOpened, PTP_HEADER_SIZE, hlen, hok, h201, h2len]
  by_cases h3len : r3.length < 12
  · right; right
    simp [openSessionM, setTid, bindM, sendCommand, transferOut, receiveResponse,
      transferIn, closeSessionM, pureM, throwErr, List.append_assoc, List.drop_left,
      PTP_RC_OK, PTP_RC_SessionAlreadyOpened, PTP_HEADER_SIZE, hlen, hok, h201, h2len, h3len]
  by_cases h3ok : le16 r3 6 = 8193
  · right; right
    simp [openSessionM, setTid, bindM, sendCommand, transferOut, receiveResponse,
      transferIn, closeSessionM, pureM, throwErr, List.append_assoc, List.drop_left,
      PTP_RC_OK, PTP_RC_SessionAlreadyOpened, PTP_HEADER_SIZE, hlen, hok, h201, h2len, h3len, h3ok]
  · right; right
    simp [openSessionM, setTid, bindM, sendCommand, transferOut, receiveResponse,
      transferIn, closeSessionM, pureM, throwErr, List.append_assoc, List.drop_left,
      PTP_RC_OK, PTP_RC_SessionAlreadyOpened, PTP_HEADER_SIZE, hlen, hok, h201, h2len, h3len, h3ok]

/-- Claim C4: `sendCommand` appends exactly one packet, encoded with the
incremented counter, whose header transaction-id field is the counter's
32-bit image; consecutive (unwrapped) counters give consecutive header
ids; over every `openSession` execution the recorded packets are such that
each OpenSession packet carries header transaction id 0 (the counter is
reset to -1 before each OpenSession send). -/
theorem claim_C4 :
    (∀ st tr code params,
       ((sendCommand code params st tr).2.1).sent =
           st.sent ++ [encodePacket PTP_USB_CONTAINER_COMMAND code
                         (st.transactionId + 1) params]
     ∧ ((sendCommand code params st tr).2.1).transactionId = st.transactionId + 1
     ∧ decodeTid (encodePacket PTP_USB_CONTAINER_COMMAND code
           (st.transactionId + 1) params) = u32ofInt (st.transactionId + 1))
  ∧ (∀ tid : Int, 0 ≤ tid → tid + 1 < 4294967296 →
       u32ofInt (tid + 1) = u32ofInt tid + 1)
  ∧ (∀ st tr p,
       p ∈ ((openSessionM st tr).2.1).sent.drop st.sent.length →
       decodeCode p = PTP_OC_OpenSession →
       decodeTid p = 0) := by
  refine ⟨?_, ?_, ?_⟩
  · intro st tr code params
    rw [sendCommand_state]
    exact ⟨rfl, rfl, decodeTid_encodePacket _ _ _ _⟩
  · intro tid h0 h1
    unfold u32ofInt
    omega
  · intro st tr p hp hcode
    have htid0 : decodeTid (encodePacket PTP_USB_CONTAINER_COMMAND
        PTP_OC_OpenSession 0 [1]) = 0 := by
      rw [decodeTid_encodePacket]
      decide
    have hclose : decodeCode (encodePacket PTP_USB_CONTAINER_COMMAND
        PTP_OC_CloseSession 1 []) = PTP_OC_CloseSession := by
      rw [decodeCode_encodePacket]
      decide
    rcases openSession_delta st tr with h | h | h <;> rw [h] at hp <;>
      simp only [List.mem_cons, List.mem_singleton, List.not_mem_nil, or_false] at hp
    · rw [hp]
      exact htid0
    · rcases hp with hp | hp
      · rw [hp]; exact htid0
      · rw [hp] at hcode
        rw [hclose] at hcode
        exact absurd hcode (by decide)
    · rcases hp with hp | hp | hp
      · rw [hp]; exact htid0
      · rw [hp] at hcode
        rw [hclose] at hcode
        exact absurd hcode (by decide)
      · rw [hp]; exact htid0

/-- Witness for C4: concrete instance of the consecutive-id law. -/
theorem claim_C4_witness : u32ofInt (5 + 1) = u32ofInt 5 + 1 :=
  claim_C4.2.1 5 (by norm_num) (by norm_num)

/-! ## Claim C5 -/

/-- Claim C5: Canon event decoding walks records by their own declared
size, stopping at a record with size < 8, at the size-8/type-0 sentinel,
and at a record whose size runs past the buffer; a record of type 0xC189
whose property code (the u32 at record offset 8) is 0xD1AC or 0xD167 and
whose size is at least 16 is retained with the u32 at record offset 12 as
its value; every other record is skipped by exactly its size; every
retained change carries one of the two watched codes. -/
theorem claim_C5 :
    (∀ data fuel offset,
       offset + 8 ≤ data.length →
       le32 data offset = 8 → le32 data (offset + 4) = 0 →
       parseGo data (fuel + 1) offset = some [])
  ∧ (∀ data fuel offset,
       offset + 8 ≤ data.length →
       le32 data offset < 8 →
       parseGo data (fuel + 1) offset = some [])
  ∧ (∀ data fuel offset,
       offset + 8 ≤ data.length →
       8 ≤ le32 data offset →
       ¬(le32 data offset = 8 ∧ le32 data (offset + 4) = 0) →
       data.length < offset + le32 data offset →
       parseGo data (fuel + 1) offset = some [])
  ∧ (∀ data fuel offset,
       offset + 8 ≤ data.length →
       le32 data (offset + 4) = PTP_EC_CANON_EOS_PropValueChanged →
       16 ≤ le32 data offset →
       offset + le32 data offset ≤ data.length →
       (le32 data (offset + 8) = PTP_DPC_CANON_EOS_ShutterCounter ∨
        le32 data (offset + 8) = PTP_DPC_CANON_EOS_ShutterReleaseCounter) →
       parseGo data (fuel + 1) offset =
         (parseGo data fuel (offset + le32 data offset)).map
           (fun cs => ⟨le32 data (offset + 8),
                       le32 data (offset + PTP_HEADER_SIZE)⟩ :: cs))
  ∧ (∀ data fuel offset,
       offset + 8 ≤ data.length →
       8 ≤ le32 data offset →
       ¬(le32 data offset = 8 ∧ le32 data (offset + 4) = 0) →
       offset + le32 data offset ≤ data.length →
       le32 data (offset + 4) ≠ PTP_EC_CANON_EOS_PropValueChanged →
       parseGo data (fuel + 1) offset =
         parseGo data fuel (offset + le32 data offset))
  ∧ (∀ data fuel offset,
       offset + 8 ≤ data.length →
       8 ≤ le32 data offset →
       offset + le32 data offset ≤ data.length →
       le32 data (offset + 4) = PTP_EC_CANON_EOS_PropValueChanged →
       offset + 12 ≤ data.length →
       ¬((le32 data (offset + 8) = PTP_DPC_CANON_EOS_ShutterCounter ∨
          le32 data (offset + 8) = PTP_DPC_CANON_EOS_ShutterReleaseCounter) ∧
         16 ≤ le32 data offset) →
       parseGo data (fuel + 1) offset =
         parseGo data fuel (offset + le32 data offset))
  ∧ (∀ data fuel offset cs,
       parseGo data fuel offset = some cs →
       ∀ c ∈ cs, c.propCode = PTP_DPC_CANON_EOS_ShutterCounter ∨
                 c.propCode = PTP_DPC_CANON_EOS_ShutterReleaseCounter)
  ∧ (∀ data, parseCanonPropChanges data =
       parseGo data data.length PTP_HEADER_SIZE) := by
  refine ⟨?_, ?_, ?_, ?_, ?_, ?_, ?_, fun data => rfl⟩
  · intro data fuel offset h8 hsz hty
    simp [parseGo, h8, hsz, hty]
  · intro data fuel offset h8 hsz
    simp [parseGo, h8, hsz]
  · intro data fuel offset h8 hsz hns hover
    simp [parseGo, h8, hns, hover, show ¬(le32 data offset < 8) by omega]
  · intro data fuel offset h8 hty hsz hbound hprop
    simp only [PTP_EC_CANON_EOS_PropValueChanged] at hty
    simp only [PTP_DPC_CANON_EOS_ShutterCounter,
      PTP_DPC_CANON_EOS_ShutterReleaseCounter] at hprop
    simp [parseGo, getUint32?, h8, hty, hsz, hprop,
      PTP_EC_CANON_EOS_PropValueChanged, PTP_DPC_CANON_EOS_ShutterCounter,
      PTP_DPC_CANON_EOS_ShutterReleaseCounter, PTP_HEADER_SIZE,
      show ¬(le32 data offset < 8) by omega,
      show ¬(le32 data offset = 8 ∧ le32 data (offset + 4) = 0) by omega,
      show ¬(data.length < offset + le32 data offset) by omega,
      show offset + 8 + 4 ≤ data.length by omega]
  · intro data fuel offset h8 hsz hns hbound htyne
    simp only [PTP_EC_CANON_EOS_PropValueChanged] at htyne
    simp [parseGo, h8, htyne, hns, PTP_EC_CANON_EOS_PropValueChanged,
      show ¬(le32 data offset < 8) by omega,
      show ¬(data.length < offset + le32 data offset) by omega]
  · intro data fuel offset h8 hsz hbound hty h12 hunw
    simp only [PTP_EC_CANON_EOS_PropValueChanged] at hty
    simp only [PTP_DPC_CANON_EOS_ShutterCounter,
      PTP_DPC_CANON_EOS_ShutterReleaseCounter] at hunw
    simp [parseGo, getUint32?, h8, hty, hunw,
      PTP_EC_CANON_EOS_PropValueChanged, PTP_DPC_CANON_EOS_ShutterCounter,
      PTP_DPC_CANON_EOS_ShutterReleaseCounter,
      show ¬(le32 data offset < 8) by omega,
      show ¬(le32 data offset = 8 ∧ le32 data (offset + 4) = 0) by omega,
      show ¬(data.length < offset + le32 data offset) by omega,
      show offset + 8 + 4 ≤ data.length by omega]
  · intro data fuel
    induction fuel with
    | zero =>
      intro offset cs h c hc
      simp [parseGo] at h
      subst h
      simp at hc
    | succ n ih =>
      intro offset cs h c hc
      rw [parseGo] at h
      by_cases h8 : offset + 8 ≤ data.length
      case neg =>
        rw [if_neg h8] at h
        injection h with h'
        subst h'
        simp at hc
      rw [if_pos h8] at h
      by_cases hlt : le32 data offset < 8
      case pos =>
        rw [if_pos hlt] at h
        injection h with h'
        subst h'
        simp at hc
      rw [if_neg hlt] at h
      by_cases hsen : le32 data offset = 8 ∧ le32 data (offset + 4) = 0
      case pos =>
        rw [if_pos hsen] at h
        injection h with h'
        subst h'
        simp at hc
      rw [if_neg hsen] at h
      by_cases hov : data.length < offset + le32 data offset
      case pos =>
        rw [if_pos hov] at h
        injection h with h'
        subst h'
        simp at hc
      rw [if_neg hov] at h
      by_cases hty : le32 data (offset + 4) = PTP_EC_CANON_EOS_PropValueChanged
      case neg =>
        rw [if_neg hty] at h
        exact ih _ _ h c hc
      rw [if_pos hty] at h
      cases hg : getUint32? data (offset + 8) with
      | none =>
        rw [hg] at h
        exact Option.noConfusion h
      | some propCode =>
        rw [hg] at h
        dsimp only at h
        by_cases hcond : (propCode = PTP_DPC_CANON_EOS_ShutterCounter ∨
            propCode = PTP_DPC_CANON_EOS_ShutterReleaseCounter) ∧
            16 ≤ le32 data offset
        case neg =>
          rw [if_neg hcond] at h
          exact ih _ _ h c hc
        rw [if_pos hcond] at h
        rcases Option.map_eq_some'.mp h with ⟨cs', hcs', hmap⟩
        subst hmap
        rcases List.mem_cons.mp hc with hc1 | hc2
        · subst hc1
          exact hcond.1
        · exact ih _ _ hcs' c hc2

def c5Data : List Nat := List.replicate 12 0 ++ [8,0,0,0, 0,0,0,0]

/-- Witness for C5: the decoder stops at a concrete size-8/type-0 sentinel
record, yielding no changes. -/
theorem claim_C5_witness : parseGo c5Data 1 12 = some [] :=
  claim_C5.1 c5Data 0 12 (by decide) (by decide) (by decide)

/-! ## Claim C7 -/

theorem byteAt_append {view : List Nat} (ext : List Nat) {i : Nat}
    (h : i < view.length) : byteAt (view ++ ext) i = byteAt view i := by
  unfold byteAt
  rw [List.getD_append _ _ _ _ h]

theorem le16_append {view : List Nat} (ext : List Nat) {i : Nat}
    (h : i + 2 ≤ view.length) : le16 (view ++ ext) i = le16 view i := by
  unfold le16
  rw [byteAt_append ext (by omega), byteAt_append ext (by omega)]

/-- Extending the buffer only extends the decoded character run. -/
theorem ptpCharsGo_append (view ext : List Nat) :
    ∀ k pos, List.IsPrefix (ptpCharsGo view pos k) (ptpCharsGo (view ++ ext) pos k) := by
  intro k
  induction k with
  | zero => intro pos; exact List.nil_prefix
  | succ n ih =>
    intro pos
    unfold ptpCharsGo
    by_cases hfit : view.length < pos + 2
    · rw [if_pos hfit]
      exact List.nil_prefix
    · rw [if_neg hfit]
      have hfit2 : ¬((view ++ ext).length < pos + 2) := by
        rw [List.length_append]
        omega
      rw [if_neg hfit2]
      rw [le16_append ext (by omega)]
      rcases ih (pos + 2) with ⟨t, ht⟩
      exact ⟨t, by rw [List.append_assoc, ht]⟩

/-- Claim C7: `parsePtpString` decodes a length-prefixed little-endian
UTF-16 string: a zero count byte yields the empty string advancing the
offset by 1; the concrete buffer `[4, 'A',0, 'B',0, 'C',0, 0,0]` yields
"ABC" (NUL excluded) advancing the offset by 9; and a buffer that ends
mid-string yields a prefix of what the extended buffer would decode —
truncation, never a failure (the function is total). -/
theorem claim_C7 :
    (∀ view offset, offset < view.length → byteAt view offset = 0 →
       parsePtpString view offset = ([], offset + 1))
  ∧ (parsePtpString [4, 65,0, 66,0, 67,0, 0,0] 0 = ([65, 66, 67], 9))
  ∧ (∀ view ext offset,
       List.IsPrefix (parsePtpString view offset).1
         (parsePtpString (view ++ ext) offset).1) := by
  refine ⟨?_, by decide, ?_⟩
  · intro view offset hlt hz
    unfold parsePtpString
    rw [if_neg (by omega), hz]
    simp
  · intro view ext offset
    unfold parsePtpString
    by_cases hoe : (view ++ ext).length ≤ offset
    · have hov : view.length ≤ offset := by
        rw [List.length_append] at hoe
        omega
      rw [if_pos hov, if_pos hoe]
    · rw [if_neg hoe]
      by_cases hov : view.length ≤ offset
      · rw [if_pos hov]
        exact List.nil_prefix
      · rw [if_neg hov]
        rw [byteAt_append ext (by omega)]
        by_cases hz : byteAt view offset = 0
        · rw [if_pos hz, if_pos hz]
        · rw [if_neg hz, if_neg hz]
          exact ptpCharsGo_append view ext _ _

/-- Witness for C7: a zero count byte on a concrete two-byte buffer. -/
theorem claim_C7_witness : parsePtpString [0, 7] 0 = ([], 1) :=
  claim_C7.1 [0, 7] 0 (by decide) (by decide)

/-! ## Claim C8 -/

/-- Counterexample to C8 as stated: a 13-byte payload (12-byte header plus
one byte) makes the standard-version `getUint16` read run past the buffer
end, and the whole parse fails (`DataView` range error), instead of any
string being truncated. -/
theorem claim_C8_counterexample : parseDeviceInfo (List.replicate 13 0) = none := by
  decide

/-- A full device-info payload: versions, vendor extension id 11, empty
description, a two-entry operations array (skipped by count*2 bytes),
empty events/props/capture/image arrays, and the strings "A","B","C","D". -/
def c8Full : List Nat :=
  List.replicate 12 0 ++ [100,0] ++ [11,0,0,0] ++ [1,0] ++ [0] ++ [0,0] ++
    [2,0,0,0] ++ [1,16,2,16] ++ [0,0,0,0] ++ [0,0,0,0] ++ [0,0,0,0] ++
    [0,0,0,0] ++ [2,65,0,0,0] ++ [2,66,0,0,0] ++ [2,67,0,0,0] ++ [2,68,0,0,0]

/-- The same payload truncated immediately after the five array counts:
all four identity strings fall past the buffer end. -/
def c8Truncated : List Nat :=
  List.replicate 12 0 ++ [100,0] ++ [11,0,0,0] ++ [1,0] ++ [0] ++ [0,0] ++
    [0,0,0,0] ++ [0,0,0,0] ++ [0,0,0,0] ++ [0,0,0,0] ++ [0,0,0,0]

/-- Claim C8, amended: device-info parsing decodes the payload in the fixed
order (standard version, vendor extension id and version, description
string, functional mode, five count-prefixed arrays skipped by count*2
bytes each, then manufacturer/model/version/serial strings); an offset
that runs past the end at one of the four identity strings truncates that
string (possibly to empty) without failing the parse, but an offset that
runs past the end at a fixed-width field or array count fails the whole
parse. -/
theorem claim_C8 :
    parseDeviceInfo c8Full =
        some { vendorExtensionId := 11, manufacturer := [65], model := [66],
               version := [67], serial := [68] }
  ∧ parseDeviceInfo c8Truncated =
        some { vendorExtensionId := 11, manufacturer := [], model := [],
               version := [], serial := [] }
  ∧ parseDeviceInfo (List.replicate 20 0) = none := by
  refine ⟨by decide, by decide, by decide⟩

/-! ## Sent-packet monotonicity -/

/-- The recorded packet list only ever grows. -/
def SentMono {α : Type} (x : M α) : Prop :=
  ∀ st tr, ∃ d, ((x st tr).2.1).sent = st.sent ++ d

theorem sentMono_of_stInv {α : Type} {x : M α} (h : StInv x) : SentMono x :=
  fun st tr => ⟨[], by rw [h st tr, List.append_nil]⟩

theorem sentMono_bindM {α β : Type} {x : M α} {f : α → M β}
    (hx : SentMono x) (hf : ∀ a, SentMono (f a)) : SentMono (bindM x f) := by
  intro st tr
  unfold bindM
  rcases hxx : x st tr with ⟨r, st1, tr1⟩
  rcases hx st tr with ⟨d1, hd1⟩
  rw [hxx] at hd1
  cases r with
  | error e => exact ⟨d1, hd1⟩
  | ok a =>
    rcases hf a st1 tr1 with ⟨d2, hd2⟩
    exact ⟨d1 ++ d2, by rw [hd2, hd1, List.append_assoc]⟩

theorem sentMono_tryCatchM {α : Type} {x h : M α}
    (hx : SentMono x) (hh : SentMono h) : SentMono (tryCatchM x h) := by
  intro st tr
  unfold tryCatchM
  rcases hxx : x st tr with ⟨r, st1, tr1⟩
  rcases hx st tr with ⟨d1, hd1⟩
  rw [hxx] at hd1
  cases r with
  | error e =>
    rcases hh st1 tr1 with ⟨d2, hd2⟩
    exact ⟨d1 ++ d2, by rw [hd2, hd1, List.append_assoc]⟩
  | ok a => exact ⟨d1, hd1⟩

theorem sentMono_tryFinallyM {α : Type} {x : M α} {fin : M Unit}
    (hx : SentMono x) (hfin : SentMono fin) : SentMono (tryFinallyM x fin) := by
  intro st tr
  unfold tryFinallyM
  rcases hxx : x st tr with ⟨r, st1, tr1⟩
  rcases hx st tr with ⟨d1, hd1⟩
  rw [hxx] at hd1
  rcases hff : fin st1 tr1 with ⟨rf, st2, tr2⟩
  rcases hfin st1 tr1 with ⟨d2, hd2⟩
  rw [hff] at hd2
  have hd1' : st1.sent = st.sent ++ d1 := hd1
  have hd2' : st2.sent = st1.sent ++ d2 := hd2
  refine ⟨d1 ++ d2, ?_⟩
  dsimp only
  rw [hff]
  cases rf with
  | error e => dsimp only; rw [hd2', hd1', List.append_assoc]
  | ok a => dsimp only; rw [hd2', hd1', List.append_assoc]

theorem sentMono_sendCommand (code : Nat) (params : List Nat) :
    SentMono (sendCommand code params) := by
  intro st tr
  exact ⟨_, by rw [sendCommand_state]⟩

theorem sentMono_setTid (v : Int) : SentMono (setTid v) :=
  fun st tr => ⟨[], by simp [setTid]⟩

theorem stInv_getDevicePropValueTail :
    StInv (bindM receiveData fun dataPacket =>
      if le16 dataPacket 4 = PTP_USB_CONTAINER_RESPONSE then pureM none
      else
        bindM receiveResponse fun responsePacket =>
        if le16 responsePacket 6 ≠ PTP_RC_OK then pureM none
        else if 16 ≤ dataPacket.length then
          pureM (some (le32 dataPacket PTP_HEADER_SIZE))
        else pureM none) := by
  refine stInv_bindM stInv_receiveData (fun dataPacket => ?_)
  dsimp only
  split
  · exact stInv_pureM none
  · refine stInv_bindM stInv_receiveResponse (fun r => ?_)
    dsimp only
    split
    · exact stInv_pureM none
    · split
      · exact stInv_pureM _
      · exact stInv_pureM none

theorem sentMono_getDevicePropValueM (propCode : Nat) :
    SentMono (getDevicePropValueM propCode) := by
  unfold getDevicePropValueM
  exact sentMono_bindM (sentMono_sendCommand _ _)
    (fun _ => sentMono_of_stInv stInv_getDevicePropValueTail)

theorem sentMono_getCanonPropChanges : SentMono getCanonPropChanges := by
  intro st tr
  exact ⟨_, by rw [getCanonPropChanges_state]⟩

theorem sentMono_pollLoop (propCode : Nat) (n : Nat) :
    SentMono (pollLoop propCode n) := by
  induction n with
  | zero => exact sentMono_of_stInv (fun st tr => rfl)
  | succ n ih =>
    unfold pollLoop
    refine sentMono_bindM sentMono_getCanonPropChanges (fun evts => ?_)
    dsimp only
    cases evts.find? (fun e => e.propCode == propCode) with
    | some e => exact sentMono_of_stInv (fun st tr => rfl)
    | none => exact ih

theorem sentMono_queryAndPollShutterProp (propCode : Nat) :
    SentMono (queryAndPollShutterProp propCode) := by
  unfold queryAndPollShutterProp
  refine sentMono_tryCatchM ?_ (sentMono_of_stInv (stInv_pureM none))
  refine sentMono_bindM (sentMono_sendCommand _ _) (fun _ => ?_)
  exact sentMono_bindM (sentMono_of_stInv stInv_receiveResponse)
    (fun _ => sentMono_pollLoop propCode 5)

theorem sentMono_drainLoop (n : Nat) : SentMono (drainLoop n) := by
  induction n with
  | zero => exact sentMono_of_stInv (fun st tr => rfl)
  | succ n ih =>
    unfold drainLoop
    refine sentMono_bindM sentMono_getCanonPropChanges (fun evts => ?_)
    dsimp only
    cases evts.find? (fun e =>
        e.propCode == PTP_DPC_CANON_EOS_ShutterCounter ||
        e.propCode == PTP_DPC_CANON_EOS_ShutterReleaseCounter) with
    | some e => exact sentMono_of_stInv (fun st tr => rfl)
    | none =>
      dsimp only
      split
      · exact sentMono_of_stInv (fun st tr => rfl)
      · exact ih

theorem sentMono_drainShutterEvents : SentMono drainShutterEvents :=
  sentMono_tryCatchM (sentMono_drainLoop 5) (sentMono_of_stInv (stInv_pureM none))

theorem sentMono_getCanonShutterCount : SentMono getCanonShutterCount := by
  unfold getCanonShutterCount
  refine sentMono_bindM sentMono_drainShutterEvents (fun c0 => ?_)
  cases c0 with
  | some v => exact sentMono_of_stInv (stInv_pureM _)
  | none =>
    refine sentMono_bindM (sentMono_queryAndPollShutterProp _) (fun c1 => ?_)
    cases c1 with
    | some v => exact sentMono_of_stInv (stInv_pureM _)
    | none =>
      refine sentMono_bindM (sentMono_getDevicePropValueM _) (fun c2 => ?_)
      cases c2 with
      | some v => exact sentMono_of_stInv (stInv_pureM _)
      | none =>
        refine sentMono_bindM (sentMono_queryAndPollShutterProp _) (fun c3 => ?_)
        cases c3 with
        | some v => exact sentMono_of_stInv (stInv_pureM _)
        | none =>
          refine sentMono_bindM (sentMono_getDevicePropValueM _) (fun c4 => ?_)
          cases c4 with
          | some v => exact sentMono_of_stInv (stInv_pureM _)
          | none => exact sentMono_of_stInv (stInv_pureM _)

theorem sentMono_exitCanon : SentMono exitCanon := by
  unfold exitCanon
  refine sentMono_bindM ?_ (fun _ => ?_)
  · refine sentMono_tryCatchM ?_ (sentMono_of_stInv (stInv_pureM ()))
    exact sentMono_bindM (sentMono_sendCommand _ _)
      (fun _ => sentMono_bindM (sentMono_of_stInv stInv_receiveResponse)
        (fun _ => sentMono_of_stInv (stInv_pureM ())))
  · refine sentMono_tryCatchM ?_ (sentMono_of_stInv (stInv_pureM ()))
    exact sentMono_bindM (sentMono_sendCommand _ _)
      (fun _ => sentMono_bindM (sentMono_of_stInv stInv_receiveResponse)
        (fun _ => sentMono_of_stInv (stInv_pureM ())))

/-! ## Claim C9 -/

/-- Case analysis on a `bindM`'s final state: either the first component
failed (state is its state), or it succeeded and the state is the
continuation's. -/
theorem bindM_state {α β : Type} (x : M α) (f : α → M β) (st : PtpState) (tr : Trace) :
    ((bindM x f) st tr).2.1 = (x st tr).2.1 ∨
    ∃ a st1 tr1, x st tr = (.ok a, st1, tr1) ∧
      ((bindM x f) st tr).2.1 = (f a st1 tr1).2.1 := by
  unfold bindM
  rcases hxx : x st tr with ⟨r, st1, tr1⟩
  cases r with
  | error e => left; rfl
  | ok a => right; exact ⟨a, st1, tr1, rfl, rfl⟩

/-- The final state of a `tryFinallyM` is the finaliser's state, run from
the body's state and trace. -/
theorem tryFinallyM_state {α : Type} (x : M α) (fin : M Unit)
    (st : PtpState) (tr : Trace) :
    ((tryFinallyM x fin) st tr).2.1 =
      (fin (x st tr).2.1 (x st tr).2.2).2.1 := by
  unfold tryFinallyM
  rcases hxx : x st tr with ⟨r, st1, tr1⟩
  rcases hff : fin st1 tr1 with ⟨rf, st2, tr2⟩
  cases rf with
  | error e => dsimp only; rw [hff]
  | ok a => dsimp only; rw [hff]

/-- `initCanon` always records the Canon SetRemoteMode(1) command first. -/
theorem initCanon_sent (st : PtpState) (tr : Trace) :
    ∃ d, ((initCanon st tr).2.1).sent =
      st.sent ++ encodePacket PTP_USB_CONTAINER_COMMAND
        PTP_OC_CANON_EOS_SetRemoteMode (st.transactionId + 1) [1] :: d := by
  have htail : SentMono (bindM receiveResponse fun _ =>
      bindM (sendCommand PTP_OC_CANON_EOS_SetEventMode [1]) fun _ =>
      bindM receiveResponse fun _ =>
      bindM (sendCommand PTP_OC_CANON_EOS_SetRequestOLCInfoGroup [0x1fff]) fun _ =>
      bindM receiveResponse fun _ =>
      bindM (sendCommand PTP_OC_CANON_EOS_PCHDDCapacity [0x0fffffff, 0x1000, 0x1]) fun _ =>
      bindM receiveResponse fun _ => pureM ()) := by
    refine sentMono_bindM (sentMono_of_stInv stInv_receiveResponse) (fun _ => ?_)
    refine sentMono_bindM (sentMono_sendCommand _ _) (fun _ => ?_)
    refine sentMono_bindM (sentMono_of_stInv stInv_receiveResponse) (fun _ => ?_)
    refine sentMono_bindM (sentMono_sendCommand _ _) (fun _ => ?_)
    refine sentMono_bindM (sentMono_of_stInv stInv_receiveResponse) (fun _ => ?_)
    refine sentMono_bindM (sentMono_sendCommand _ _) (fun _ => ?_)
    exact sentMono_bindM (sentMono_of_stInv stInv_receiveResponse)
      (fun _ => sentMono_of_stInv (stInv_pureM ()))
  unfold initCanon
  rw [tryCatchM_state_of_inv stInv_throwErr]
  rcases bindM_state (sendCommand PTP_OC_CANON_EOS_SetRemoteMode [1]) _ st tr
    with h | ⟨a, st1, tr1, hx, h⟩
  · rw [h, sendCommand_state]
    exact ⟨[], rfl⟩
  · rw [h]
    have hst1 : st1.sent = st.sent ++ [encodePacket PTP_USB_CONTAINER_COMMAND
        PTP_OC_CANON_EOS_SetRemoteMode (st.transactionId + 1) [1]] := by
      have hs := sendCommand_state PTP_OC_CANON_EOS_SetRemoteMode [1] st tr
      rw [hx] at hs
      exact congrArg PtpState.sent hs
    rcases htail st1 tr1 with ⟨d2, hd2⟩
    exact ⟨d2, hd2.trans (by rw [hst1, List.append_assoc, List.singleton_append])⟩

/-- The Canon vendor branch always records SetRemoteMode(1) as its first
vendor command. -/
theorem canonBranch_sent (st : PtpState) (tr : Trace) :
    ∃ d, ((vendorStep PTP_VENDOR_CANON st tr).2.1).sent =
      st.sent ++ encodePacket PTP_USB_CONTAINER_COMMAND
        PTP_OC_CANON_EOS_SetRemoteMode (st.transactionId + 1) [1] :: d := by
  have hbranch : vendorStep PTP_VENDOR_CANON st tr =
      tryFinallyM (bindM initCanon fun _ => getCanonShutterCount) exitCanon st tr := by
    unfold vendorStep
    simp
  rw [hbranch, tryFinallyM_state]
  have hbody : ∃ d, (((bindM initCanon fun _ => getCanonShutterCount) st tr).2.1).sent =
      st.sent ++ encodePacket PTP_USB_CONTAINER_COMMAND
        PTP_OC_CANON_EOS_SetRemoteMode (st.transactionId + 1) [1] :: d := by
    rcases bindM_state initCanon (fun _ => getCanonShutterCount) st tr
      with h | ⟨a, st1, tr1, hx, h⟩
    · rw [h]
      exact initCanon_sent st tr
    · rw [h]
      have hst1 : ∃ d1, st1.sent =
          st.sent ++ encodePacket PTP_USB_CONTAINER_COMMAND
            PTP_OC_CANON_EOS_SetRemoteMode (st.transactionId + 1) [1] :: d1 := by
        rcases initCanon_sent st tr with ⟨d1, hd1⟩
        rw [hx] at hd1
        exact ⟨d1, hd1⟩
      rcases hst1 with ⟨d1, hd1⟩
      rcases sentMono_getCanonShutterCount st1 tr1 with ⟨d2, hd2⟩
      refine ⟨d1 ++ d2, ?_⟩
      exact hd2.trans (by rw [hd1]; simp)
  rcases hbody with ⟨d, hd⟩
  rcases sentMono_exitCanon
      ((bindM initCanon fun _ => getCanonShutterCount) st tr).2.1
      ((bindM initCanon fun _ => getCanonShutterCount) st tr).2.2
    with ⟨d3, hd3⟩
  refine ⟨d ++ d3, ?_⟩
  exact hd3.trans (by rw [hd]; simp)

/-- Claim C9: vendor dispatch gives the manufacturer string priority over
the vendor-extension id and Canon priority over Fuji: a manufacturer
case-insensitively containing "canon" selects the Canon id (and the Canon
strategy runs — its SetRemoteMode(1) is recorded — even when the
extension id is Fuji's); "fuji" is consulted only when "canon" fails to
match; and a device matching neither substring nor either id records no
vendor command at all and yields shutter count -1. -/
theorem claim_C9 :
    (∀ m vid, listIncludes (lowerStr m) canonStr = true →
       computeVendorId m vid = PTP_VENDOR_CANON)
  ∧ (∀ m vid st tr, listIncludes (lowerStr m) canonStr = true →
       ∃ d, ((vendorStep (computeVendorId m vid) st tr).2.1).sent =
         st.sent ++ encodePacket PTP_USB_CONTAINER_COMMAND
           PTP_OC_CANON_EOS_SetRemoteMode (st.transactionId + 1) [1] :: d)
  ∧ (∀ m vid, listIncludes (lowerStr m) canonStr = false →
       listIncludes (lowerStr m) fujiStr = true →
       computeVendorId m vid = PTP_VENDOR_FUJI)
  ∧ (∀ m vid st tr, listIncludes (lowerStr m) canonStr = false →
       listIncludes (lowerStr m) fujiStr = false →
       vid ≠ PTP_VENDOR_CANON → vid ≠ PTP_VENDOR_FUJI →
       vendorStep (computeVendorId m vid) st tr = (.ok (-1), st, tr)) := by
  refine ⟨?_, ?_, ?_, ?_⟩
  · intro m vid hc
    simp [computeVendorId, hc]
  · intro m vid st tr hc
    rw [show computeVendorId m vid = PTP_VENDOR_CANON by simp [computeVendorId, hc]]
    exact canonBranch_sent st tr
  · intro m vid hc hf
    simp [computeVendorId, hc, hf]
  · intro m vid st tr hc hf hvc hvf
    rw [show computeVendorId m vid = vid by simp [computeVendorId, hc, hf]]
    unfold vendorStep
    rw [if_neg hvc, if_neg hvf]
    rfl

def c9State : PtpState :=
  { transactionId := 2, sent := [], interfaceNumber := some 0, opened := true }

/-- Witness for C9: a manufacturer reading "CANON Inc." dispatches to the
Canon strategy even with the Fuji vendor-extension id, recording
SetRemoteMode(1) first. -/
theorem claim_C9_witness :
    ∃ d, ((vendorStep (computeVendorId
        [67,65,78,79,78,32,73,110,99,46] PTP_VENDOR_FUJI) c9State []).2.1).sent =
      [] ++ encodePacket PTP_USB_CONTAINER_COMMAND
        PTP_OC_CANON_EOS_SetRemoteMode 3 [1] :: d :=
  claim_C9.2.1 [67,65,78,79,78,32,73,110,99,46] PTP_VENDOR_FUJI c9State [] (by decide)

/-! ## Claim C6 -/

def c6State : PtpState :=
  { transactionId := 0, sent := [], interfaceNumber := some 0, opened := true }

/-- A GetDeviceInfo data container whose parsed identity is an unknown
vendor (vendor-extension id 0, all strings empty). -/
def c6DevInfo : List Nat :=
  [47,0,0,0, 2,0, 1,16, 0,0,0,0] ++ [100,0] ++ [0,0,0,0] ++ [0,0] ++ [0] ++
    [0,0] ++ List.replicate 20 0 ++ [0,0,0,0]

def c6RespOK : List Nat := [12,0,0,0, 3,0, 1,32, 0,0,0,0]

/-- A trace on which everything succeeds until `closeSession`'s response
read, which rejects; the transport-release steps afterwards succeed. -/
def c6Trace : Trace :=
  [some [], some c6RespOK, some [], some c6DevInfo, some c6RespOK,
   some [], none, some [], some []]

/-- Counterexample to C6 as stated: on `c6Trace` the only failing
operation is inside session close (its response read rejects), yet the
whole query raises — session close is not guarded by any catch, so a
cleanup failure does reach the caller. -/
theorem claim_C6_counterexample : (runQuery c6State c6Trace).1 = .error () := by
  rfl

/-- Claim C6, amended: the Canon exit sequence never raises (each of its
two steps swallows its own failure); the interface-release step of
transport release swallows its failure; and transport release runs on
every exit path of a query — its state change is applied to whatever
state the body reached, success or failure. However session close is
unguarded, so its failure propagates to the caller (see the
counterexample), and the device-close step of transport release can
itself raise. -/
theorem claim_C6 :
    (∀ st tr, ∃ st' tr', exitCanon st tr = (.ok (), st', tr'))
  ∧ (∀ st c rest, st.opened = true → st.interfaceNumber ≠ none →
       ptpClose st (none :: some c :: rest) =
         (.ok (), {st with interfaceNumber := none, opened := false}, rest))
  ∧ (∀ st tr, (runQuery st tr).2.1 =
       (ptpClose (queryBody st tr).2.1 (queryBody st tr).2.2).2.1) := by
  refine ⟨?_, ?_, fun st tr => tryFinallyM_state queryBody ptpClose st tr⟩
  · intro st tr
    rcases alwaysOk_exitCanon st tr with ⟨a, st', tr', heq⟩
    cases a
    exact ⟨st', tr', heq⟩
  · intro st c rest hopen hiface
    simp [ptpClose, tryCatchM, bindM, releaseInterfaceOp, deviceCloseOp,
      transferOut, pureM, hopen, hiface]

def c6WState : PtpState :=
  { transactionId := 0, sent := [], interfaceNumber := some 1, opened := true }

/-- Witness for the amended C6: a concrete transport release whose
interface-release step rejects still completes, closing the device. -/
theorem claim_C6_witness :
    ptpClose c6WState [none, some []] =
      (.ok (), {c6WState with interfaceNumber := none, opened := false}, []) :=
  claim_C6.2.1 c6WState [] [] (by decide) (by decide)

end Camera
